import Mathlib

/-!
Shallow embedding of `src/create_bilingual_pdf.py` (repository `manejar`).

Strings are modelled as `List Char` (Python strings are sequences of Unicode
code points, and `len`, slicing, containment and `replace` all work on code
points).  The PDF I/O in `extract_questions_from_pdf` (PyPDF2) and the final
`doc.build(story)` call (reportlab) are third-party library effects; the
embedding covers everything the script itself computes: the line filtering and
question scanning (source lines 346-424), the substitution translator
(lines 32-331) and the story construction (lines 426-527).
-/

/-- Characters the script's regexes and `strip` treat as whitespace:
Python 3's `\s` for `str` patterns matches exactly the characters for which
`str.isspace()` holds — ASCII whitespace `\t\n\v\f\r` and space, the
separator controls U+001C..U+001F, NEL U+0085, NBSP U+00A0, Ogham space mark
U+1680, the space separators U+2000..U+200A, line and paragraph separators
U+2028/U+2029, narrow NBSP U+202F, medium mathematical space U+205F and
ideographic space U+3000. -/
def isPySpace (c : Char) : Bool :=
  c == ' ' || c == '\t' || c == '\n' || c == '\x0b' || c == '\x0c' || c == '\x0d' ||
    ('\x1c' ≤ c && c ≤ '\x1f') || c == '\x85' || c == '\xa0' ||
    c == '\u1680' || ('\u2000' ≤ c && c ≤ '\u200a') ||
    c == '\u2028' || c == '\u2029' || c == '\u202f' || c == '\u205f' || c == '\u3000'

/-- Lower-case cased characters of the script's character repertoire
(ASCII letters plus the Spanish accented letters). -/
def isLowerCasedChar (c : Char) : Bool :=
  ('a' ≤ c && c ≤ 'z') || c == 'á' || c == 'é' || c == 'í' || c == 'ó' ||
    c == 'ú' || c == 'ü' || c == 'ñ'

/-- Upper-case cased characters of the script's character repertoire. -/
def isUpperCasedChar (c : Char) : Bool :=
  ('A' ≤ c && c ≤ 'Z') || c == 'Á' || c == 'É' || c == 'Í' || c == 'Ó' ||
    c == 'Ú' || c == 'Ü' || c == 'Ñ'

/-- Python `str.lower`, restricted to the characters occurring in the script's
data (ASCII and the Spanish accented capitals); every other character is
unchanged, as in Python for uncased characters. -/
def pyLowerChar (c : Char) : Char :=
  if 'A' ≤ c && c ≤ 'Z' then Char.ofNat (c.toNat + 32)
  else if c == 'Á' then 'á'
  else if c == 'É' then 'é'
  else if c == 'Í' then 'í'
  else if c == 'Ó' then 'ó'
  else if c == 'Ú' then 'ú'
  else if c == 'Ü' then 'ü'
  else if c == 'Ñ' then 'ñ'
  else c

/-- Python `str.lower` on a whole string. -/
def pyLower (l : List Char) : List Char := l.map pyLowerChar

/-- Python `str.isupper`: at least one cased character and no lower-case
cased character. -/
def pyIsUpper (l : List Char) : Bool :=
  l.any (fun c => isLowerCasedChar c || isUpperCasedChar c) && !(l.any isLowerCasedChar)

/-- Python's substring containment `sub in s`. -/
def listContains (sub : List Char) : List Char → Bool
  | [] => sub.isEmpty
  | c :: rest => sub.isPrefixOf (c :: rest) || listContains sub rest

/-- Worker for `pyReplace` on a non-empty pattern: leftmost, non-overlapping
replacement, continuing after the inserted replacement, exactly as Python's
`str.replace`.  The fuel is an upper bound on the number of steps; each step
consumes at least one character of `s`, so `s.length` fuel suffices. -/
def pyReplaceAux (pat repl : List Char) : Nat → List Char → List Char
  | 0, s => s
  | _ + 1, [] => []
  | fuel + 1, c :: rest =>
    if pat.isPrefixOf (c :: rest) then
      repl ++ pyReplaceAux pat repl fuel (List.drop (pat.length - 1) rest)
    else
      c :: pyReplaceAux pat repl fuel rest

/-- Python `s.replace(pat, repl)` (all occurrences).  The empty-pattern case
(Python inserts `repl` between every character) never arises in the script,
whose dictionary keys are all non-empty, but is modelled faithfully. -/
def pyReplace (s pat repl : List Char) : List Char :=
  if pat.isEmpty then repl ++ s.foldr (fun c acc => c :: (repl ++ acc)) []
  else pyReplaceAux pat repl s.length s

/-- The `COMPREHENSIVE_TRANSLATIONS` dictionary literal of the source
(lines 32-317), as the exact sequence of key/value pairs written in the file,
in source order, including the duplicated keys `"como"` and `"menos"`. -/
def COMPREHENSIVE_TRANSLATIONS_literal : List (String × String) :=
  [("¿Qué", "Что"),
   ("¿Cuál", "Какой"),
   ("¿Cuáles", "Какие"),
   ("¿Cómo", "Как"),
   ("¿Dónde", "Где"),
   ("¿Cuándo", "Когда"),
   ("¿Por qué", "Почему"),
   ("¿A qué", "К чему"),
   ("¿En qué", "В чём"),
   ("¿De qué", "О чём"),
   ("¿Según", "Согласно"),
   ("¿Puede", "Может ли"),
   ("¿Debe", "Должен ли"),
   ("¿Es", "Является ли"),
   ("¿Está", "Находится ли"),
   ("Verdadero", "Верно"),
   ("Falso", "Неверно"),
   ("A.", "А."),
   ("B.", "Б."),
   ("C.", "В."),
   ("Sí", "Да"),
   ("No", "Нет"),
   ("factor se deben la mayoría de los siniestros viales", "фактор является причиной большинства дорожно-транспортных происшествий"),
   ("Organización Mundial de la Salud", "Всемирная организация здравоохранения"),
   ("resultado de diversos factores", "результат различных факторов"),
   ("aumentar la propia seguridad", "повысить собственную безопасность"),
   ("condiciones en que se encuentran", "условия, в которых находятся"),
   ("infraestructura vial", "дорожная инфраструктура"),
   ("condiciones climáticas", "климатические условия"),
   ("factor ambiental", "экологический фактор"),
   ("principal factor de riesgo", "основной фактор риска"),
   ("condiciones meteorológicas", "метеорологические условия"),
   ("fallas mecánicas", "механические неисправности"),
   ("conductas negligentes", "небрежное поведение"),
   ("propietarios de los vehículos", "владельцы транспортных средств"),
   ("verificación del estado", "проверка состояния"),
   ("incidente de tránsito", "дорожный инцидент"),
   ("incidente vial", "дорожное происшествие"),
   ("circulación en la vía pública", "движение по общественным дорогам"),
   ("usuarios de la vía pública", "пользователи общественных дорог"),
   ("responsable de una parte del tránsito", "ответственен за часть дорожного движения"),
   ("no causar peligro", "не создавать опасность"),
   ("entorpecer la circulación", "препятствовать движению"),
   ("estamos obligados", "мы обязаны"),
   ("perjuicios o molestias innecesarias", "ненужный вред или неудобства"),
   ("víctimas fatales", "смертельные жертвы"),
   ("lesionados graves", "серьёзно пострадавшие"),
   ("siniestro de tránsito", "дорожно-транспортное происшествие"),
   ("daños materiales", "материальный ущерб"),
   ("costos sanitarios", "медицинские расходы"),
   ("costos administrativos", "административные расходы"),
   ("premisa básica", "основная предпосылка"),
   ("obligación de no entorpecer", "обязательство не препятствовать"),
   ("experiencia de manejo", "опыт вождения"),
   ("cursos de actualización", "курсы повышения квалификации"),
   ("temática vial", "дорожная тематика"),
   ("frecuencia no mayor", "частота не более"),
   ("principios básicos", "основные принципы"),
   ("sistema de tránsito", "система дорожного движения"),
   ("velocidad y confort", "скорость и комфорт"),
   ("fluidez y seguridad", "плавность и безопасность"),
   ("comodidad y agilidad", "удобство и ловкость"),
   ("mayor probabilidad de siniestralidad", "большая вероятность аварий"),
   ("menor cantidad de vehículos", "меньшее количество транспортных средств"),
   ("mayor cantidad de vehículos", "большее количество транспортных средств"),
   ("menor probabilidad", "меньшая вероятность"),
   ("usuarios de la vía", "пользователи дороги"),
   ("ordenados de más a menos vulnerable", "упорядочены от наиболее к наименее уязвимым"),
   ("demarcación horizontal verde", "зелёная горизонтальная разметка"),
   ("intersección hay una ciclovía", "перекрёстке есть велосипедная дорожка"),
   ("se aproxima a un cruce ferroviario", "приближается к железнодорожному переезду"),
   ("cruce exclusivo de peatones", "пешеходный переход"),
   ("demarcación de la senda peatonal", "разметка пешеходной дорожки"),
   ("por dónde deben cruzar", "где должны переходить"),
   ("es indistinto", "всё равно"),
   ("miren a ambos lados", "посмотрят в обе стороны"),
   ("coincidencia con las paradas", "совпадение с остановками"),
   ("prolongación longitudinal", "продольное продолжение"),
   ("carriles exclusivos", "выделенные полосы"),
   ("único sentido de circulación", "одностороннее движение"),
   ("bandas longitudinales demarcadas", "размеченные продольные полосы"),
   ("calzada destinadas", "проезжая часть предназначена"),
   ("determinados vehículos", "определённые транспортные средства"),
   ("ambulancias, bomberos", "скорая помощь, пожарные"),
   ("vehículos policiales", "полицейские машины"),
   ("vehículo", "транспортное средство"),
   ("vehículos", "транспортные средства"),
   ("automóvil", "автомобиль"),
   ("conductor", "водитель"),
   ("conductores", "водители"),
   ("conducir", "водить"),
   ("conducción", "вождение"),
   ("tránsito", "дорожное движение"),
   ("circulación", "движение"),
   ("vía pública", "общественная дорога"),
   ("calzada", "проезжая часть"),
   ("peatón", "пешеход"),
   ("peatones", "пешеходы"),
   ("licencia", "лицензия"),
   ("licencia de conducir", "водительские права"),
   ("seguridad", "безопасность"),
   ("velocidad", "скорость"),
   ("límite", "ограничение"),
   ("siniestro", "авария"),
   ("accidente", "авария"),
   ("colisión", "столкновение"),
   ("semáforo", "светофор"),
   ("señal", "знак"),
   ("señalización", "знаки"),
   ("carril", "полоса"),
   ("carriles", "полосы"),
   ("autopista", "автомагистраль"),
   ("avenida", "проспект"),
   ("calle", "улица"),
   ("esquina", "угол"),
   ("cruce", "перекресток"),
   ("intersección", "пересечение"),
   ("estacionamiento", "парковка"),
   ("estacionar", "парковаться"),
   ("parar", "останавливаться"),
   ("detener", "останавливать"),
   ("frenar", "тормозить"),
   ("girar", "поворачивать"),
   ("derecha", "направо"),
   ("izquierda", "налево"),
   ("adelantar", "обгонять"),
   ("adelantamiento", "обгон"),
   ("distancia", "расстояние"),
   ("metro", "метр"),
   ("metros", "метров"),
   ("kilómetro", "километр"),
   ("kilómetros", "километров"),
   ("hora", "час"),
   ("horas", "часов"),
   ("km/h", "км/ч"),
   ("alcohol", "алкоголь"),
   ("alcoholemia", "содержание алкоголя в крови"),
   ("sangre", "кровь"),
   ("fatiga", "усталость"),
   ("cansancio", "усталость"),
   ("luces", "фары"),
   ("cinturón", "ремень"),
   ("cinturón de seguridad", "ремень безопасности"),
   ("casco", "шлем"),
   ("documento", "документ"),
   ("documentación", "документы"),
   ("infracción", "нарушение"),
   ("multa", "штраф"),
   ("prohibido", "запрещено"),
   ("obligatorio", "обязательно"),
   ("permitido", "разрешено"),
   ("responsabilidad", "ответственность"),
   ("responsable", "ответственный"),
   ("norma", "норма"),
   ("normas", "нормы"),
   ("ley", "закон"),
   ("reglamento", "правила"),
   ("edad", "возраст"),
   ("menor", "несовершеннолетний"),
   ("menores", "несовершеннолетние"),
   ("adulto", "взрослый"),
   ("persona", "человек"),
   ("personas", "люди"),
   ("pasajero", "пассажир"),
   ("pasajeros", "пассажиры"),
   ("transporte", "транспорт"),
   ("público", "общественный"),
   ("privado", "частный"),
   ("emergencia", "чрезвычайная ситуация"),
   ("ambulancia", "скорая помощь"),
   ("bomberos", "пожарная"),
   ("policía", "полиция"),
   ("hospital", "больница"),
   ("zona", "зона"),
   ("urbana", "городская"),
   ("rural", "сельская"),
   ("escuela", "школа"),
   ("túnel", "туннель"),
   ("puente", "мост"),
   ("curva", "поворот"),
   ("recta", "прямая"),
   ("subida", "подъем"),
   ("bajada", "спуск"),
   ("lluvia", "дождь"),
   ("nieve", "снег"),
   ("niebla", "туман"),
   ("viento", "ветер"),
   ("día", "день"),
   ("noche", "ночь"),
   ("clima", "погода"),
   ("visibilidad", "видимость"),
   ("espejo", "зеркало"),
   ("retrovisor", "зеркало заднего вида"),
   ("motor", "двигатель"),
   ("frenos", "тормоза"),
   ("neumático", "шина"),
   ("neumáticos", "шины"),
   ("combustible", "топливо"),
   ("aceite", "масло"),
   ("batería", "аккумулятор"),
   ("mantenimiento", "техническое обслуживание"),
   ("reparación", "ремонт"),
   ("verificación", "проверка"),
   ("inspección", "осмотр"),
   ("el", ""),
   ("la", ""),
   ("los", ""),
   ("las", ""),
   ("un", ""),
   ("una", ""),
   ("de", ""),
   ("del", ""),
   ("que", "что"),
   ("en", "в"),
   ("con", "с"),
   ("por", "по"),
   ("para", "для"),
   ("al", ""),
   ("se", ""),
   ("como", "как"),
   ("más", "более"),
   ("menos", "менее"),
   ("todo", "весь"),
   ("toda", "вся"),
   ("todos", "все"),
   ("todas", "все"),
   ("otro", "другой"),
   ("otra", "другая"),
   ("otros", "другие"),
   ("otras", "другие"),
   ("mismo", "тот же"),
   ("misma", "та же"),
   ("mismos", "те же"),
   ("mismas", "те же"),
   ("este", "этот"),
   ("esta", "эта"),
   ("estos", "эти"),
   ("estas", "эти"),
   ("ese", "тот"),
   ("esa", "та"),
   ("esos", "те"),
   ("esas", "те"),
   ("cuando", "когда"),
   ("donde", "где"),
   ("como", "как"),
   ("porque", "потому что"),
   ("pero", "но"),
   ("sin", "без"),
   ("desde", "с"),
   ("hasta", "до"),
   ("entre", "между"),
   ("sobre", "на"),
   ("bajo", "под"),
   ("ante", "перед"),
   ("tras", "за"),
   ("durante", "во время"),
   ("mediante", "посредством"),
   ("según", "согласно"),
   ("excepto", "кроме"),
   ("salvo", "кроме"),
   ("menos", "кроме"),
   ("incluso", "даже"),
   ("también", "также"),
   ("tampoco", "тоже не"),
   ("siempre", "всегда"),
   ("nunca", "никогда"),
   ("jamás", "никогда"),
   ("ya", "уже"),
   ("aún", "ещё"),
   ("todavía", "ещё"),
   ("apenas", "едва"),
   ("solo", "только"),
   ("sólo", "только"),
   ("solamente", "только"),
   ("únicamente", "исключительно")]

/-- The dictionary literal with both components as character lists. -/
def translationPairs : List (List Char × List Char) :=
  COMPREHENSIVE_TRANSLATIONS_literal.map (fun p => (p.1.data, p.2.data))

/-- One assignment of a Python dict literal: a repeated key overwrites the
value stored at the key's first position, a new key is appended. -/
def dictInsert (acc : List (List Char × List Char)) (kv : List Char × List Char) :
    List (List Char × List Char) :=
  if acc.any (fun p => p.1 == kv.1) then
    acc.map (fun p => if p.1 == kv.1 then (p.1, kv.2) else p)
  else acc ++ [kv]

/-- Python dict construction from a literal's assignment sequence. -/
def pyDict (l : List (List Char × List Char)) : List (List Char × List Char) :=
  l.foldl dictInsert []

/-- The runtime value of `COMPREHENSIVE_TRANSLATIONS`: the association list
the dict literal evaluates to (first-occurrence order, last value per key). -/
def COMPREHENSIVE_TRANSLATIONS : List (List Char × List Char) :=
  pyDict translationPairs

/-- Stable insertion (descending by the cached key length): an element is
placed before the first element whose key is not longer, so that among
equal-length keys the original (dict) order is preserved, as with Python's
stable `sorted(..., key=lambda x: len(x[0]), reverse=True)`. -/
def insertByLenDesc (x : Nat × (List Char × List Char)) :
    List (Nat × (List Char × List Char)) → List (Nat × (List Char × List Char))
  | [] => [x]
  | y :: ys => if y.1 ≤ x.1 then x :: y :: ys else y :: insertByLenDesc x ys

/-- The `sorted_translations` list of `comprehensive_translate`
(source lines 324-325): dictionary items sorted by key length, longest
first, ties in dictionary order (Python's sort is stable and precomputes
the key function, hence the cached lengths). -/
def sorted_translations : List (List Char × List Char) :=
  (((COMPREHENSIVE_TRANSLATIONS.map (fun p => (p.1.length, p))).foldr
      insertByLenDesc []).map Prod.snd)

/-- The body of the replacement loop (source lines 327-329). -/
def translateStep (result : List Char) (p : List Char × List Char) : List Char :=
  if listContains p.1 result then pyReplace result p.1 p.2 else result

/-- `comprehensive_translate` (source lines 319-331): fold the replacement
step over the length-sorted dictionary items, starting from the input. -/
def comprehensive_translate (text : List Char) : List Char :=
  sorted_translations.foldl translateStep text

/-- Stable insertion ascending by cached key length (for the shortest-first
what-if ordering that claim C3 compares against). -/
def insertByLenAsc (x : Nat × (List Char × List Char)) :
    List (Nat × (List Char × List Char)) → List (Nat × (List Char × List Char))
  | [] => [x]
  | y :: ys => if x.1 ≤ y.1 then x :: y :: ys else y :: insertByLenAsc x ys

/-- The dictionary items sorted shortest key first (the ordering the source
deliberately does NOT use); only used to contrast with `sorted_translations`. -/
def sorted_translations_shortest_first : List (List Char × List Char) :=
  (((COMPREHENSIVE_TRANSLATIONS.map (fun p => (p.1.length, p))).foldr
      insertByLenAsc []).map Prod.snd)

/-- The translator as it would behave with the shortest-first ordering;
a hypothetical variant used only to witness that the implemented
longest-first order matters (claim C3). -/
def comprehensive_translate_shortest_first (text : List Char) : List Char :=
  sorted_translations_shortest_first.foldl translateStep text

/-- Boolean check that consecutive keys have non-increasing lengths. -/
def chainLenDesc : List (List Char × List Char) → Bool
  | [] => true
  | [_] => true
  | a :: b :: t => decide (b.1.length ≤ a.1.length) && chainLenDesc (b :: t)
/-- Cached value of `sorted_translations` (validated below by `sorted_translations_eq`): the runtime dictionary's items sorted by key length descending, ties in dictionary order. -/
def sorted_translations_literal : List (String × String) :=
  [("factor se deben la mayoría de los siniestros viales", "фактор является причиной большинства дорожно-транспортных происшествий"),
   ("responsable de una parte del tránsito", "ответственен за часть дорожного движения"),
   ("mayor probabilidad de siniestralidad", "большая вероятность аварий"),
   ("perjuicios o molestias innecesarias", "ненужный вред или неудобства"),
   ("ordenados de más a menos vulnerable", "упорядочены от наиболее к наименее уязвимым"),
   ("se aproxima a un cruce ferroviario", "приближается к железнодорожному переезду"),
   ("Organización Mundial de la Salud", "Всемирная организация здравоохранения"),
   ("condiciones en que se encuentran", "условия, в которых находятся"),
   ("demarcación de la senda peatonal", "разметка пешеходной дорожки"),
   ("bandas longitudinales demarcadas", "размеченные продольные полосы"),
   ("resultado de diversos factores", "результат различных факторов"),
   ("propietarios de los vehículos", "владельцы транспортных средств"),
   ("circulación en la vía pública", "движение по общественным дорогам"),
   ("intersección hay una ciclovía", "перекрёстке есть велосипедная дорожка"),
   ("aumentar la propia seguridad", "повысить собственную безопасность"),
   ("demarcación horizontal verde", "зелёная горизонтальная разметка"),
   ("coincidencia con las paradas", "совпадение с остановками"),
   ("único sentido de circulación", "одностороннее движение"),
   ("obligación de no entorpecer", "обязательство не препятствовать"),
   ("menor cantidad de vehículos", "меньшее количество транспортных средств"),
   ("mayor cantidad de vehículos", "большее количество транспортных средств"),
   ("cruce exclusivo de peatones", "пешеходный переход"),
   ("principal factor de riesgo", "основной фактор риска"),
   ("condiciones meteorológicas", "метеорологические условия"),
   ("usuarios de la vía pública", "пользователи общественных дорог"),
   ("entorpecer la circulación", "препятствовать движению"),
   ("prolongación longitudinal", "продольное продолжение"),
   ("verificación del estado", "проверка состояния"),
   ("cursos de actualización", "курсы повышения квалификации"),
   ("condiciones climáticas", "климатические условия"),
   ("costos administrativos", "административные расходы"),
   ("por dónde deben cruzar", "где должны переходить"),
   ("determinados vehículos", "определённые транспортные средства"),
   ("conductas negligentes", "небрежное поведение"),
   ("incidente de tránsito", "дорожный инцидент"),
   ("siniestro de tránsito", "дорожно-транспортное происшествие"),
   ("experiencia de manejo", "опыт вождения"),
   ("ambulancias, bomberos", "скорая помощь, пожарные"),
   ("cinturón de seguridad", "ремень безопасности"),
   ("infraestructura vial", "дорожная инфраструктура"),
   ("comodidad y agilidad", "удобство и ловкость"),
   ("vehículos policiales", "полицейские машины"),
   ("licencia de conducir", "водительские права"),
   ("frecuencia no mayor", "частота не более"),
   ("sistema de tránsito", "система дорожного движения"),
   ("velocidad y confort", "скорость и комфорт"),
   ("fluidez y seguridad", "плавность и безопасность"),
   ("miren a ambos lados", "посмотрят в обе стороны"),
   ("carriles exclusivos", "выделенные полосы"),
   ("principios básicos", "основные принципы"),
   ("menor probabilidad", "меньшая вероятность"),
   ("usuarios de la vía", "пользователи дороги"),
   ("calzada destinadas", "проезжая часть предназначена"),
   ("no causar peligro", "не создавать опасность"),
   ("estamos obligados", "мы обязаны"),
   ("lesionados graves", "серьёзно пострадавшие"),
   ("costos sanitarios", "медицинские расходы"),
   ("factor ambiental", "экологический фактор"),
   ("fallas mecánicas", "механические неисправности"),
   ("víctimas fatales", "смертельные жертвы"),
   ("daños materiales", "материальный ущерб"),
   ("estacionamiento", "парковка"),
   ("responsabilidad", "ответственность"),
   ("incidente vial", "дорожное происшествие"),
   ("premisa básica", "основная предпосылка"),
   ("adelantamiento", "обгон"),
   ("temática vial", "дорожная тематика"),
   ("es indistinto", "всё равно"),
   ("documentación", "документы"),
   ("mantenimiento", "техническое обслуживание"),
   ("señalización", "знаки"),
   ("intersección", "пересечение"),
   ("verificación", "проверка"),
   ("conductores", "водители"),
   ("circulación", "движение"),
   ("vía pública", "общественная дорога"),
   ("alcoholemia", "содержание алкоголя в крови"),
   ("obligatorio", "обязательно"),
   ("responsable", "ответственный"),
   ("visibilidad", "видимость"),
   ("combustible", "топливо"),
   ("conducción", "вождение"),
   ("estacionar", "парковаться"),
   ("kilómetros", "километров"),
   ("infracción", "нарушение"),
   ("reglamento", "правила"),
   ("transporte", "транспорт"),
   ("emergencia", "чрезвычайная ситуация"),
   ("ambulancia", "скорая помощь"),
   ("retrovisor", "зеркало заднего вида"),
   ("neumáticos", "шины"),
   ("reparación", "ремонт"),
   ("inspección", "осмотр"),
   ("únicamente", "исключительно"),
   ("Verdadero", "Верно"),
   ("vehículos", "транспортные средства"),
   ("automóvil", "автомобиль"),
   ("conductor", "водитель"),
   ("seguridad", "безопасность"),
   ("velocidad", "скорость"),
   ("siniestro", "авария"),
   ("accidente", "авария"),
   ("autopista", "автомагистраль"),
   ("izquierda", "налево"),
   ("adelantar", "обгонять"),
   ("distancia", "расстояние"),
   ("kilómetro", "километр"),
   ("cansancio", "усталость"),
   ("documento", "документ"),
   ("prohibido", "запрещено"),
   ("permitido", "разрешено"),
   ("pasajeros", "пассажиры"),
   ("neumático", "шина"),
   ("solamente", "только"),
   ("¿Por qué", "Почему"),
   ("vehículo", "транспортное средство"),
   ("conducir", "водить"),
   ("tránsito", "дорожное движение"),
   ("peatones", "пешеходы"),
   ("licencia", "лицензия"),
   ("colisión", "столкновение"),
   ("semáforo", "светофор"),
   ("carriles", "полосы"),
   ("cinturón", "ремень"),
   ("personas", "люди"),
   ("pasajero", "пассажир"),
   ("bomberos", "пожарная"),
   ("hospital", "больница"),
   ("mediante", "посредством"),
   ("¿Cuáles", "Какие"),
   ("¿Cuándo", "Когда"),
   ("¿En qué", "В чём"),
   ("¿De qué", "О чём"),
   ("calzada", "проезжая часть"),
   ("avenida", "проспект"),
   ("esquina", "угол"),
   ("detener", "останавливать"),
   ("derecha", "направо"),
   ("alcohol", "алкоголь"),
   ("menores", "несовершеннолетние"),
   ("persona", "человек"),
   ("público", "общественный"),
   ("privado", "частный"),
   ("policía", "полиция"),
   ("escuela", "школа"),
   ("batería", "аккумулятор"),
   ("durante", "во время"),
   ("excepto", "кроме"),
   ("incluso", "даже"),
   ("también", "также"),
   ("tampoco", "тоже не"),
   ("siempre", "всегда"),
   ("todavía", "ещё"),
   ("¿Dónde", "Где"),
   ("¿A qué", "К чему"),
   ("¿Según", "Согласно"),
   ("¿Puede", "Может ли"),
   ("peatón", "пешеход"),
   ("límite", "ограничение"),
   ("carril", "полоса"),
   ("frenar", "тормозить"),
   ("metros", "метров"),
   ("sangre", "кровь"),
   ("fatiga", "усталость"),
   ("normas", "нормы"),
   ("adulto", "взрослый"),
   ("urbana", "городская"),
   ("puente", "мост"),
   ("subida", "подъем"),
   ("bajada", "спуск"),
   ("lluvia", "дождь"),
   ("niebla", "туман"),
   ("viento", "ветер"),
   ("espejo", "зеркало"),
   ("frenos", "тормоза"),
   ("aceite", "масло"),
   ("mismos", "те же"),
   ("mismas", "те же"),
   ("cuando", "когда"),
   ("porque", "потому что"),
   ("apenas", "едва"),
   ("¿Cuál", "Какой"),
   ("¿Cómo", "Как"),
   ("¿Debe", "Должен ли"),
   ("¿Está", "Находится ли"),
   ("Falso", "Неверно"),
   ("señal", "знак"),
   ("calle", "улица"),
   ("cruce", "перекресток"),
   ("parar", "останавливаться"),
   ("girar", "поворачивать"),
   ("metro", "метр"),
   ("horas", "часов"),
   ("luces", "фары"),
   ("casco", "шлем"),
   ("multa", "штраф"),
   ("norma", "норма"),
   ("menor", "несовершеннолетний"),
   ("rural", "сельская"),
   ("túnel", "туннель"),
   ("curva", "поворот"),
   ("recta", "прямая"),
   ("nieve", "снег"),
   ("noche", "ночь"),
   ("clima", "погода"),
   ("motor", "двигатель"),
   ("menos", "кроме"),
   ("todos", "все"),
   ("todas", "все"),
   ("otros", "другие"),
   ("otras", "другие"),
   ("mismo", "тот же"),
   ("misma", "та же"),
   ("estos", "эти"),
   ("estas", "эти"),
   ("donde", "где"),
   ("desde", "с"),
   ("hasta", "до"),
   ("entre", "между"),
   ("sobre", "на"),
   ("según", "согласно"),
   ("salvo", "кроме"),
   ("nunca", "никогда"),
   ("jamás", "никогда"),
   ("¿Qué", "Что"),
   ("hora", "час"),
   ("km/h", "км/ч"),
   ("edad", "возраст"),
   ("zona", "зона"),
   ("para", "для"),
   ("como", "как"),
   ("todo", "весь"),
   ("toda", "вся"),
   ("otro", "другой"),
   ("otra", "другая"),
   ("este", "этот"),
   ("esta", "эта"),
   ("esos", "те"),
   ("esas", "те"),
   ("pero", "но"),
   ("bajo", "под"),
   ("ante", "перед"),
   ("tras", "за"),
   ("solo", "только"),
   ("sólo", "только"),
   ("¿Es", "Является ли"),
   ("ley", "закон"),
   ("día", "день"),
   ("los", ""),
   ("las", ""),
   ("una", ""),
   ("del", ""),
   ("que", "что"),
   ("con", "с"),
   ("por", "по"),
   ("más", "более"),
   ("ese", "тот"),
   ("esa", "та"),
   ("sin", "без"),
   ("aún", "ещё"),
   ("A.", "А."),
   ("B.", "Б."),
   ("C.", "В."),
   ("Sí", "Да"),
   ("No", "Нет"),
   ("el", ""),
   ("la", ""),
   ("un", ""),
   ("de", ""),
   ("en", "в"),
   ("al", ""),
   ("se", ""),
   ("ya", "уже")]

/-- `sorted_translations_literal` with both components as character lists. -/
def sorted_translations_value : List (List Char × List Char) :=
  sorted_translations_literal.map (fun p => (p.1.data, p.2.data))

/-- Cached value of `sorted_translations_shortest_first` (validated below by `sorted_translations_shortest_eq`). -/
def sorted_translations_shortest_literal : List (String × String) :=
  [("A.", "А."),
   ("B.", "Б."),
   ("C.", "В."),
   ("Sí", "Да"),
   ("No", "Нет"),
   ("el", ""),
   ("la", ""),
   ("un", ""),
   ("de", ""),
   ("en", "в"),
   ("al", ""),
   ("se", ""),
   ("ya", "уже"),
   ("¿Es", "Является ли"),
   ("ley", "закон"),
   ("día", "день"),
   ("los", ""),
   ("las", ""),
   ("una", ""),
   ("del", ""),
   ("que", "что"),
   ("con", "с"),
   ("por", "по"),
   ("más", "более"),
   ("ese", "тот"),
   ("esa", "та"),
   ("sin", "без"),
   ("aún", "ещё"),
   ("¿Qué", "Что"),
   ("hora", "час"),
   ("km/h", "км/ч"),
   ("edad", "возраст"),
   ("zona", "зона"),
   ("para", "для"),
   ("como", "как"),
   ("todo", "весь"),
   ("toda", "вся"),
   ("otro", "другой"),
   ("otra", "другая"),
   ("este", "этот"),
   ("esta", "эта"),
   ("esos", "те"),
   ("esas", "те"),
   ("pero", "но"),
   ("bajo", "под"),
   ("ante", "перед"),
   ("tras", "за"),
   ("solo", "только"),
   ("sólo", "только"),
   ("¿Cuál", "Какой"),
   ("¿Cómo", "Как"),
   ("¿Debe", "Должен ли"),
   ("¿Está", "Находится ли"),
   ("Falso", "Неверно"),
   ("señal", "знак"),
   ("calle", "улица"),
   ("cruce", "перекресток"),
   ("parar", "останавливаться"),
   ("girar", "поворачивать"),
   ("metro", "метр"),
   ("horas", "часов"),
   ("luces", "фары"),
   ("casco", "шлем"),
   ("multa", "штраф"),
   ("norma", "норма"),
   ("menor", "несовершеннолетний"),
   ("rural", "сельская"),
   ("túnel", "туннель"),
   ("curva", "поворот"),
   ("recta", "прямая"),
   ("nieve", "снег"),
   ("noche", "ночь"),
   ("clima", "погода"),
   ("motor", "двигатель"),
   ("menos", "кроме"),
   ("todos", "все"),
   ("todas", "все"),
   ("otros", "другие"),
   ("otras", "другие"),
   ("mismo", "тот же"),
   ("misma", "та же"),
   ("estos", "эти"),
   ("estas", "эти"),
   ("donde", "где"),
   ("desde", "с"),
   ("hasta", "до"),
   ("entre", "между"),
   ("sobre", "на"),
   ("según", "согласно"),
   ("salvo", "кроме"),
   ("nunca", "никогда"),
   ("jamás", "никогда"),
   ("¿Dónde", "Где"),
   ("¿A qué", "К чему"),
   ("¿Según", "Согласно"),
   ("¿Puede", "Может ли"),
   ("peatón", "пешеход"),
   ("límite", "ограничение"),
   ("carril", "полоса"),
   ("frenar", "тормозить"),
   ("metros", "метров"),
   ("sangre", "кровь"),
   ("fatiga", "усталость"),
   ("normas", "нормы"),
   ("adulto", "взрослый"),
   ("urbana", "городская"),
   ("puente", "мост"),
   ("subida", "подъем"),
   ("bajada", "спуск"),
   ("lluvia", "дождь"),
   ("niebla", "туман"),
   ("viento", "ветер"),
   ("espejo", "зеркало"),
   ("frenos", "тормоза"),
   ("aceite", "масло"),
   ("mismos", "те же"),
   ("mismas", "те же"),
   ("cuando", "когда"),
   ("porque", "потому что"),
   ("apenas", "едва"),
   ("¿Cuáles", "Какие"),
   ("¿Cuándo", "Когда"),
   ("¿En qué", "В чём"),
   ("¿De qué", "О чём"),
   ("calzada", "проезжая часть"),
   ("avenida", "проспект"),
   ("esquina", "угол"),
   ("detener", "останавливать"),
   ("derecha", "направо"),
   ("alcohol", "алкоголь"),
   ("menores", "несовершеннолетние"),
   ("persona", "человек"),
   ("público", "общественный"),
   ("privado", "частный"),
   ("policía", "полиция"),
   ("escuela", "школа"),
   ("batería", "аккумулятор"),
   ("durante", "во время"),
   ("excepto", "кроме"),
   ("incluso", "даже"),
   ("también", "также"),
   ("tampoco", "тоже не"),
   ("siempre", "всегда"),
   ("todavía", "ещё"),
   ("¿Por qué", "Почему"),
   ("vehículo", "транспортное средство"),
   ("conducir", "водить"),
   ("tránsito", "дорожное движение"),
   ("peatones", "пешеходы"),
   ("licencia", "лицензия"),
   ("colisión", "столкновение"),
   ("semáforo", "светофор"),
   ("carriles", "полосы"),
   ("cinturón", "ремень"),
   ("personas", "люди"),
   ("pasajero", "пассажир"),
   ("bomberos", "пожарная"),
   ("hospital", "больница"),
   ("mediante", "посредством"),
   ("Verdadero", "Верно"),
   ("vehículos", "транспортные средства"),
   ("automóvil", "автомобиль"),
   ("conductor", "водитель"),
   ("seguridad", "безопасность"),
   ("velocidad", "скорость"),
   ("siniestro", "авария"),
   ("accidente", "авария"),
   ("autopista", "автомагистраль"),
   ("izquierda", "налево"),
   ("adelantar", "обгонять"),
   ("distancia", "расстояние"),
   ("kilómetro", "километр"),
   ("cansancio", "усталость"),
   ("documento", "документ"),
   ("prohibido", "запрещено"),
   ("permitido", "разрешено"),
   ("pasajeros", "пассажиры"),
   ("neumático", "шина"),
   ("solamente", "только"),
   ("conducción", "вождение"),
   ("estacionar", "парковаться"),
   ("kilómetros", "километров"),
   ("infracción", "нарушение"),
   ("reglamento", "правила"),
   ("transporte", "транспорт"),
   ("emergencia", "чрезвычайная ситуация"),
   ("ambulancia", "скорая помощь"),
   ("retrovisor", "зеркало заднего вида"),
   ("neumáticos", "шины"),
   ("reparación", "ремонт"),
   ("inspección", "осмотр"),
   ("únicamente", "исключительно"),
   ("conductores", "водители"),
   ("circulación", "движение"),
   ("vía pública", "общественная дорога"),
   ("alcoholemia", "содержание алкоголя в крови"),
   ("obligatorio", "обязательно"),
   ("responsable", "ответственный"),
   ("visibilidad", "видимость"),
   ("combustible", "топливо"),
   ("señalización", "знаки"),
   ("intersección", "пересечение"),
   ("verificación", "проверка"),
   ("temática vial", "дорожная тематика"),
   ("es indistinto", "всё равно"),
   ("documentación", "документы"),
   ("mantenimiento", "техническое обслуживание"),
   ("incidente vial", "дорожное происшествие"),
   ("premisa básica", "основная предпосылка"),
   ("adelantamiento", "обгон"),
   ("estacionamiento", "парковка"),
   ("responsabilidad", "ответственность"),
   ("factor ambiental", "экологический фактор"),
   ("fallas mecánicas", "механические неисправности"),
   ("víctimas fatales", "смертельные жертвы"),
   ("daños materiales", "материальный ущерб"),
   ("no causar peligro", "не создавать опасность"),
   ("estamos obligados", "мы обязаны"),
   ("lesionados graves", "серьёзно пострадавшие"),
   ("costos sanitarios", "медицинские расходы"),
   ("principios básicos", "основные принципы"),
   ("menor probabilidad", "меньшая вероятность"),
   ("usuarios de la vía", "пользователи дороги"),
   ("calzada destinadas", "проезжая часть предназначена"),
   ("frecuencia no mayor", "частота не более"),
   ("sistema de tránsito", "система дорожного движения"),
   ("velocidad y confort", "скорость и комфорт"),
   ("fluidez y seguridad", "плавность и безопасность"),
   ("miren a ambos lados", "посмотрят в обе стороны"),
   ("carriles exclusivos", "выделенные полосы"),
   ("infraestructura vial", "дорожная инфраструктура"),
   ("comodidad y agilidad", "удобство и ловкость"),
   ("vehículos policiales", "полицейские машины"),
   ("licencia de conducir", "водительские права"),
   ("conductas negligentes", "небрежное поведение"),
   ("incidente de tránsito", "дорожный инцидент"),
   ("siniestro de tránsito", "дорожно-транспортное происшествие"),
   ("experiencia de manejo", "опыт вождения"),
   ("ambulancias, bomberos", "скорая помощь, пожарные"),
   ("cinturón de seguridad", "ремень безопасности"),
   ("condiciones climáticas", "климатические условия"),
   ("costos administrativos", "административные расходы"),
   ("por dónde deben cruzar", "где должны переходить"),
   ("determinados vehículos", "определённые транспортные средства"),
   ("verificación del estado", "проверка состояния"),
   ("cursos de actualización", "курсы повышения квалификации"),
   ("entorpecer la circulación", "препятствовать движению"),
   ("prolongación longitudinal", "продольное продолжение"),
   ("principal factor de riesgo", "основной фактор риска"),
   ("condiciones meteorológicas", "метеорологические условия"),
   ("usuarios de la vía pública", "пользователи общественных дорог"),
   ("obligación de no entorpecer", "обязательство не препятствовать"),
   ("menor cantidad de vehículos", "меньшее количество транспортных средств"),
   ("mayor cantidad de vehículos", "большее количество транспортных средств"),
   ("cruce exclusivo de peatones", "пешеходный переход"),
   ("aumentar la propia seguridad", "повысить собственную безопасность"),
   ("demarcación horizontal verde", "зелёная горизонтальная разметка"),
   ("coincidencia con las paradas", "совпадение с остановками"),
   ("único sentido de circulación", "одностороннее движение"),
   ("propietarios de los vehículos", "владельцы транспортных средств"),
   ("circulación en la vía pública", "движение по общественным дорогам"),
   ("intersección hay una ciclovía", "перекрёстке есть велосипедная дорожка"),
   ("resultado de diversos factores", "результат различных факторов"),
   ("Organización Mundial de la Salud", "Всемирная организация здравоохранения"),
   ("condiciones en que se encuentran", "условия, в которых находятся"),
   ("demarcación de la senda peatonal", "разметка пешеходной дорожки"),
   ("bandas longitudinales demarcadas", "размеченные продольные полосы"),
   ("se aproxima a un cruce ferroviario", "приближается к железнодорожному переезду"),
   ("perjuicios o molestias innecesarias", "ненужный вред или неудобства"),
   ("ordenados de más a menos vulnerable", "упорядочены от наиболее к наименее уязвимым"),
   ("mayor probabilidad de siniestralidad", "большая вероятность аварий"),
   ("responsable de una parte del tránsito", "ответственен за часть дорожного движения"),
   ("factor se deben la mayoría de los siniestros viales", "фактор является причиной большинства дорожно-транспортных происшествий")]

/-- `sorted_translations_shortest_literal` with both components as character lists. -/
def sorted_translations_shortest_value : List (List Char × List Char) :=
  sorted_translations_shortest_literal.map (fun p => (p.1.data, p.2.data))

set_option maxRecDepth 40000
set_option maxHeartbeats 1600000

/-- The computed `sorted_translations` agrees with its cached literal value. -/
theorem sorted_translations_eq : sorted_translations = sorted_translations_value := by
  decide

/-- The computed shortest-first ordering agrees with its cached literal value. -/
theorem sorted_translations_shortest_eq :
    sorted_translations_shortest_first = sorted_translations_shortest_value := by
  decide
/-- Cached value of the runtime dictionary `COMPREHENSIVE_TRANSLATIONS`
(validated below by `COMPREHENSIVE_TRANSLATIONS_eq`): first-occurrence key order,
last assigned value per key. -/
def COMPREHENSIVE_TRANSLATIONS_literal_value : List (String × String) :=
  [("¿Qué", "Что"),
   ("¿Cuál", "Какой"),
   ("¿Cuáles", "Какие"),
   ("¿Cómo", "Как"),
   ("¿Dónde", "Где"),
   ("¿Cuándo", "Когда"),
   ("¿Por qué", "Почему"),
   ("¿A qué", "К чему"),
   ("¿En qué", "В чём"),
   ("¿De qué", "О чём"),
   ("¿Según", "Согласно"),
   ("¿Puede", "Может ли"),
   ("¿Debe", "Должен ли"),
   ("¿Es", "Является ли"),
   ("¿Está", "Находится ли"),
   ("Verdadero", "Верно"),
   ("Falso", "Неверно"),
   ("A.", "А."),
   ("B.", "Б."),
   ("C.", "В."),
   ("Sí", "Да"),
   ("No", "Нет"),
   ("factor se deben la mayoría de los siniestros viales", "фактор является причиной большинства дорожно-транспортных происшествий"),
   ("Organización Mundial de la Salud", "Всемирная организация здравоохранения"),
   ("resultado de diversos factores", "результат различных факторов"),
   ("aumentar la propia seguridad", "повысить собственную безопасность"),
   ("condiciones en que se encuentran", "условия, в которых находятся"),
   ("infraestructura vial", "дорожная инфраструктура"),
   ("condiciones climáticas", "климатические условия"),
   ("factor ambiental", "экологический фактор"),
   ("principal factor de riesgo", "основной фактор риска"),
   ("condiciones meteorológicas", "метеорологические условия"),
   ("fallas mecánicas", "механические неисправности"),
   ("conductas negligentes", "небрежное поведение"),
   ("propietarios de los vehículos", "владельцы транспортных средств"),
   ("verificación del estado", "проверка состояния"),
   ("incidente de tránsito", "дорожный инцидент"),
   ("incidente vial", "дорожное происшествие"),
   ("circulación en la vía pública", "движение по общественным дорогам"),
   ("usuarios de la vía pública", "пользователи общественных дорог"),
   ("responsable de una parte del tránsito", "ответственен за часть дорожного движения"),
   ("no causar peligro", "не создавать опасность"),
   ("entorpecer la circulación", "препятствовать движению"),
   ("estamos obligados", "мы обязаны"),
   ("perjuicios o molestias innecesarias", "ненужный вред или неудобства"),
   ("víctimas fatales", "смертельные жертвы"),
   ("lesionados graves", "серьёзно пострадавшие"),
   ("siniestro de tránsito", "дорожно-транспортное происшествие"),
   ("daños materiales", "материальный ущерб"),
   ("costos sanitarios", "медицинские расходы"),
   ("costos administrativos", "административные расходы"),
   ("premisa básica", "основная предпосылка"),
   ("obligación de no entorpecer", "обязательство не препятствовать"),
   ("experiencia de manejo", "опыт вождения"),
   ("cursos de actualización", "курсы повышения квалификации"),
   ("temática vial", "дорожная тематика"),
   ("frecuencia no mayor", "частота не более"),
   ("principios básicos", "основные принципы"),
   ("sistema de tránsito", "система дорожного движения"),
   ("velocidad y confort", "скорость и комфорт"),
   ("fluidez y seguridad", "плавность и безопасность"),
   ("comodidad y agilidad", "удобство и ловкость"),
   ("mayor probabilidad de siniestralidad", "большая вероятность аварий"),
   ("menor cantidad de vehículos", "меньшее количество транспортных средств"),
   ("mayor cantidad de vehículos", "большее количество транспортных средств"),
   ("menor probabilidad", "меньшая вероятность"),
   ("usuarios de la vía", "пользователи дороги"),
   ("ordenados de más a menos vulnerable", "упорядочены от наиболее к наименее уязвимым"),
   ("demarcación horizontal verde", "зелёная горизонтальная разметка"),
   ("intersección hay una ciclovía", "перекрёстке есть велосипедная дорожка"),
   ("se aproxima a un cruce ferroviario", "приближается к железнодорожному переезду"),
   ("cruce exclusivo de peatones", "пешеходный переход"),
   ("demarcación de la senda peatonal", "разметка пешеходной дорожки"),
   ("por dónde deben cruzar", "где должны переходить"),
   ("es indistinto", "всё равно"),
   ("miren a ambos lados", "посмотрят в обе стороны"),
   ("coincidencia con las paradas", "совпадение с остановками"),
   ("prolongación longitudinal", "продольное продолжение"),
   ("carriles exclusivos", "выделенные полосы"),
   ("único sentido de circulación", "одностороннее движение"),
   ("bandas longitudinales demarcadas", "размеченные продольные полосы"),
   ("calzada destinadas", "проезжая часть предназначена"),
   ("determinados vehículos", "определённые транспортные средства"),
   ("ambulancias, bomberos", "скорая помощь, пожарные"),
   ("vehículos policiales", "полицейские машины"),
   ("vehículo", "транспортное средство"),
   ("vehículos", "транспортные средства"),
   ("automóvil", "автомобиль"),
   ("conductor", "водитель"),
   ("conductores", "водители"),
   ("conducir", "водить"),
   ("conducción", "вождение"),
   ("tránsito", "дорожное движение"),
   ("circulación", "движение"),
   ("vía pública", "общественная дорога"),
   ("calzada", "проезжая часть"),
   ("peatón", "пешеход"),
   ("peatones", "пешеходы"),
   ("licencia", "лицензия"),
   ("licencia de conducir", "водительские права"),
   ("seguridad", "безопасность"),
   ("velocidad", "скорость"),
   ("límite", "ограничение"),
   ("siniestro", "авария"),
   ("accidente", "авария"),
   ("colisión", "столкновение"),
   ("semáforo", "светофор"),
   ("señal", "знак"),
   ("señalización", "знаки"),
   ("carril", "полоса"),
   ("carriles", "полосы"),
   ("autopista", "автомагистраль"),
   ("avenida", "проспект"),
   ("calle", "улица"),
   ("esquina", "угол"),
   ("cruce", "перекресток"),
   ("intersección", "пересечение"),
   ("estacionamiento", "парковка"),
   ("estacionar", "парковаться"),
   ("parar", "останавливаться"),
   ("detener", "останавливать"),
   ("frenar", "тормозить"),
   ("girar", "поворачивать"),
   ("derecha", "направо"),
   ("izquierda", "налево"),
   ("adelantar", "обгонять"),
   ("adelantamiento", "обгон"),
   ("distancia", "расстояние"),
   ("metro", "метр"),
   ("metros", "метров"),
   ("kilómetro", "километр"),
   ("kilómetros", "километров"),
   ("hora", "час"),
   ("horas", "часов"),
   ("km/h", "км/ч"),
   ("alcohol", "алкоголь"),
   ("alcoholemia", "содержание алкоголя в крови"),
   ("sangre", "кровь"),
   ("fatiga", "усталость"),
   ("cansancio", "усталость"),
   ("luces", "фары"),
   ("cinturón", "ремень"),
   ("cinturón de seguridad", "ремень безопасности"),
   ("casco", "шлем"),
   ("documento", "документ"),
   ("documentación", "документы"),
   ("infracción", "нарушение"),
   ("multa", "штраф"),
   ("prohibido", "запрещено"),
   ("obligatorio", "обязательно"),
   ("permitido", "разрешено"),
   ("responsabilidad", "ответственность"),
   ("responsable", "ответственный"),
   ("norma", "норма"),
   ("normas", "нормы"),
   ("ley", "закон"),
   ("reglamento", "правила"),
   ("edad", "возраст"),
   ("menor", "несовершеннолетний"),
   ("menores", "несовершеннолетние"),
   ("adulto", "взрослый"),
   ("persona", "человек"),
   ("personas", "люди"),
   ("pasajero", "пассажир"),
   ("pasajeros", "пассажиры"),
   ("transporte", "транспорт"),
   ("público", "общественный"),
   ("privado", "частный"),
   ("emergencia", "чрезвычайная ситуация"),
   ("ambulancia", "скорая помощь"),
   ("bomberos", "пожарная"),
   ("policía", "полиция"),
   ("hospital", "больница"),
   ("zona", "зона"),
   ("urbana", "городская"),
   ("rural", "сельская"),
   ("escuela", "школа"),
   ("túnel", "туннель"),
   ("puente", "мост"),
   ("curva", "поворот"),
   ("recta", "прямая"),
   ("subida", "подъем"),
   ("bajada", "спуск"),
   ("lluvia", "дождь"),
   ("nieve", "снег"),
   ("niebla", "туман"),
   ("viento", "ветер"),
   ("día", "день"),
   ("noche", "ночь"),
   ("clima", "погода"),
   ("visibilidad", "видимость"),
   ("espejo", "зеркало"),
   ("retrovisor", "зеркало заднего вида"),
   ("motor", "двигатель"),
   ("frenos", "тормоза"),
   ("neumático", "шина"),
   ("neumáticos", "шины"),
   ("combustible", "топливо"),
   ("aceite", "масло"),
   ("batería", "аккумулятор"),
   ("mantenimiento", "техническое обслуживание"),
   ("reparación", "ремонт"),
   ("verificación", "проверка"),
   ("inspección", "осмотр"),
   ("el", ""),
   ("la", ""),
   ("los", ""),
   ("las", ""),
   ("un", ""),
   ("una", ""),
   ("de", ""),
   ("del", ""),
   ("que", "что"),
   ("en", "в"),
   ("con", "с"),
   ("por", "по"),
   ("para", "для"),
   ("al", ""),
   ("se", ""),
   ("como", "как"),
   ("más", "более"),
   ("menos", "кроме"),
   ("todo", "весь"),
   ("toda", "вся"),
   ("todos", "все"),
   ("todas", "все"),
   ("otro", "другой"),
   ("otra", "другая"),
   ("otros", "другие"),
   ("otras", "другие"),
   ("mismo", "тот же"),
   ("misma", "та же"),
   ("mismos", "те же"),
   ("mismas", "те же"),
   ("este", "этот"),
   ("esta", "эта"),
   ("estos", "эти"),
   ("estas", "эти"),
   ("ese", "тот"),
   ("esa", "та"),
   ("esos", "те"),
   ("esas", "те"),
   ("cuando", "когда"),
   ("donde", "где"),
   ("porque", "потому что"),
   ("pero", "но"),
   ("sin", "без"),
   ("desde", "с"),
   ("hasta", "до"),
   ("entre", "между"),
   ("sobre", "на"),
   ("bajo", "под"),
   ("ante", "перед"),
   ("tras", "за"),
   ("durante", "во время"),
   ("mediante", "посредством"),
   ("según", "согласно"),
   ("excepto", "кроме"),
   ("salvo", "кроме"),
   ("incluso", "даже"),
   ("también", "также"),
   ("tampoco", "тоже не"),
   ("siempre", "всегда"),
   ("nunca", "никогда"),
   ("jamás", "никогда"),
   ("ya", "уже"),
   ("aún", "ещё"),
   ("todavía", "ещё"),
   ("apenas", "едва"),
   ("solo", "только"),
   ("sólo", "только"),
   ("solamente", "только"),
   ("únicamente", "исключительно")]

/-- `COMPREHENSIVE_TRANSLATIONS_literal_value` with both components as character lists. -/
def COMPREHENSIVE_TRANSLATIONS_value : List (List Char × List Char) :=
  COMPREHENSIVE_TRANSLATIONS_literal_value.map (fun p => (p.1.data, p.2.data))

/-- The computed runtime dictionary agrees with its cached literal value. -/
theorem COMPREHENSIVE_TRANSLATIONS_eq :
    COMPREHENSIVE_TRANSLATIONS = COMPREHENSIVE_TRANSLATIONS_value := by
  decide

/-- Latin letters.  Every dictionary key contains at least one; no dictionary
value contains any (the values are Cyrillic, punctuation and spaces), which is
what makes a key unable to match inside an already-translated value. -/
def isLatinLetter (c : Char) : Bool :=
  ('a' ≤ c && c ≤ 'z') || ('A' ≤ c && c ≤ 'Z')

theorem mem_insertByLenDesc {x a : Nat × (List Char × List Char)}
    {l : List (Nat × (List Char × List Char))} :
    x ∈ insertByLenDesc a l ↔ x = a ∨ x ∈ l := by
  induction l with
  | nil => simp [insertByLenDesc]
  | cons y ys ih =>
    by_cases h : y.1 ≤ a.1 <;> simp [insertByLenDesc, h, ih] <;> tauto

theorem mem_foldr_insertByLenDesc {x : Nat × (List Char × List Char)}
    {l : List (Nat × (List Char × List Char))} :
    x ∈ l.foldr insertByLenDesc [] ↔ x ∈ l := by
  induction l with
  | nil => simp
  | cons a t ih => simp [mem_insertByLenDesc, ih]

theorem mem_sorted_translations {p : List Char × List Char} :
    p ∈ sorted_translations ↔ p ∈ COMPREHENSIVE_TRANSLATIONS := by
  unfold sorted_translations
  constructor
  · intro h
    obtain ⟨x, hx, rfl⟩ := List.mem_map.1 h
    obtain ⟨q, hq, rfl⟩ := List.mem_map.1 (mem_foldr_insertByLenDesc.1 hx)
    exact hq
  · intro h
    exact List.mem_map.2 ⟨(p.1.length, p),
      mem_foldr_insertByLenDesc.2 (List.mem_map.2 ⟨p, h, rfl⟩), rfl⟩

theorem listContains_length {sub l : List Char} (h : listContains sub l = true) :
    sub.length ≤ l.length := by
  induction l with
  | nil =>
    have : sub.isEmpty = true := h
    simp [List.isEmpty_iff.1 this]
  | cons c rest ih =>
    rw [listContains, Bool.or_eq_true] at h
    rcases h with h' | h'
    · exact (List.isPrefixOf_iff_prefix.1 h').length_le
    · exact Nat.le_trans (ih h') (by simp)

theorem listContains_eq_of_length_le {sub l : List Char}
    (h : listContains sub l = true) (hl : l.length ≤ sub.length) : sub = l := by
  induction l with
  | nil =>
    have : sub.isEmpty = true := h
    exact List.isEmpty_iff.1 this
  | cons c rest ih =>
    rw [listContains, Bool.or_eq_true] at h
    rcases h with h' | h'
    · have hp := List.isPrefixOf_iff_prefix.1 h'
      exact hp.eq_of_length (Nat.le_antisymm hp.length_le hl)
    · have := listContains_length h'
      simp only [List.length_cons] at hl
      omega

theorem listContains_self (l : List Char) : listContains l l = true := by
  cases l with
  | nil => rfl
  | cons c rest => simp [listContains]

theorem mem_of_listContains {sub l : List Char} (h : listContains sub l = true) :
    ∀ c ∈ sub, c ∈ l := by
  induction l with
  | nil =>
    have : sub.isEmpty = true := h
    intro c hc
    rw [List.isEmpty_iff.1 this] at hc
    simp at hc
  | cons d rest ih =>
    rw [listContains, Bool.or_eq_true] at h
    intro c hc
    rcases h with h' | h'
    · exact (List.isPrefixOf_iff_prefix.1 h').sublist.subset hc
    · exact List.mem_cons_of_mem _ (ih h' c hc)

theorem pyReplaceAux_nil (pat repl : List Char) (fuel : Nat) :
    pyReplaceAux pat repl fuel [] = [] := by
  cases fuel <;> rfl

/-- Replacing a non-empty pattern inside itself yields the replacement. -/
theorem pyReplace_key (pat repl : List Char) (h : pat ≠ []) :
    pyReplace pat pat repl = repl := by
  cases pat with
  | nil => exact absurd rfl h
  | cons c rest =>
    show pyReplace (c :: rest) (c :: rest) repl = repl
    unfold pyReplace
    rw [if_neg (by simp)]
    show pyReplaceAux (c :: rest) repl (rest.length + 1) (c :: rest) = repl
    unfold pyReplaceAux
    rw [if_pos (by simp)]
    simp [pyReplaceAux_nil]

theorem foldl_translateStep_skip {l : List (List Char × List Char)} {t : List Char}
    (h : ∀ p ∈ l, listContains p.1 t = false) : l.foldl translateStep t = t := by
  induction l with
  | nil => rfl
  | cons a rest ih =>
    have ha : translateStep t a = t := by
      simp [translateStep, h a (List.mem_cons_self a rest)]
    rw [List.foldl_cons, ha]
    exact ih (fun p hp => h p (List.mem_cons_of_mem _ hp))

theorem chainLenDesc_tail {a : List Char × List Char}
    {l : List (List Char × List Char)}
    (h : chainLenDesc (a :: l) = true) : chainLenDesc l = true := by
  cases l with
  | nil => rfl
  | cons b t =>
    have h' : (decide (b.1.length ≤ a.1.length) && chainLenDesc (b :: t)) = true := h
    rw [Bool.and_eq_true] at h'
    exact h'.2

theorem chainLenDesc_head {a : List Char × List Char}
    {l : List (List Char × List Char)}
    (h : chainLenDesc (a :: l) = true) : ∀ q ∈ l, q.1.length ≤ a.1.length := by
  induction l generalizing a with
  | nil => intro q hq; simp at hq
  | cons b t ih =>
    intro q hq
    have h' : (decide (b.1.length ≤ a.1.length) && chainLenDesc (b :: t)) = true := h
    rw [Bool.and_eq_true] at h'
    obtain ⟨h1, h2⟩ := h'
    rcases List.mem_cons.1 hq with rfl | hq'
    · exact of_decide_eq_true h1
    · exact Nat.le_trans (ih h2 q hq') (of_decide_eq_true h1)

theorem chainLenDesc_split {l₁ l₂ : List (List Char × List Char)}
    {p : List Char × List Char}
    (h : chainLenDesc (l₁ ++ p :: l₂) = true) :
    ∀ q ∈ l₁, p.1.length ≤ q.1.length := by
  induction l₁ with
  | nil => intro q hq; simp at hq
  | cons a t ih =>
    intro q hq
    rcases List.mem_cons.1 hq with rfl | hq'
    · exact chainLenDesc_head h p (by simp)
    · exact ih (chainLenDesc_tail h) q hq'

theorem sorted_value_chain : chainLenDesc sorted_translations_value = true := by
  decide

theorem sorted_value_keys_nodup : (sorted_translations_value.map Prod.fst).Nodup := by
  decide

theorem sorted_value_keys_ne_nil : ∀ p ∈ sorted_translations_value, p.1 ≠ [] := by
  decide

theorem sorted_value_keys_latin :
    ∀ p ∈ sorted_translations_value, p.1.any isLatinLetter = true := by
  decide

theorem sorted_value_values_nonlatin :
    ∀ p ∈ sorted_translations_value, p.2.all (fun c => !isLatinLetter c) = true := by
  decide

theorem comprehensive_translate_value (t : List Char) :
    comprehensive_translate t = sorted_translations_value.foldl translateStep t := by
  unfold comprehensive_translate
  rw [sorted_translations_eq]

theorem comprehensive_translate_shortest_first_value (t : List Char) :
    comprehensive_translate_shortest_first t
      = sorted_translations_shortest_value.foldl translateStep t := by
  unfold comprehensive_translate_shortest_first
  rw [sorted_translations_shortest_eq]

/-- C5: for every input text that is exactly equal to one dictionary key, the
Translator returns exactly that key's mapped value (including the empty string
for the deletion entries): keys processed before it are longer or
earlier-equal-length and cannot occur inside it, the key replaces itself by
its value, and no later key can match inside the Latin-free value. -/
theorem translate_exact_key (p : List Char × List Char)
    (hmem : p ∈ COMPREHENSIVE_TRANSLATIONS) :
    comprehensive_translate p.1 = p.2 := by
  have hs : p ∈ sorted_translations_value := by
    rw [← sorted_translations_eq]
    exact mem_sorted_translations.2 hmem
  obtain ⟨l₁, l₂, hsplit⟩ := List.append_of_mem hs
  have hchain := sorted_value_chain
  have hnodup := sorted_value_keys_nodup
  rw [hsplit] at hchain hnodup
  rw [comprehensive_translate_value, hsplit, List.foldl_append]
  have h₁ : List.foldl translateStep p.1 l₁ = p.1 := by
    apply foldl_translateStep_skip
    intro q hq
    cases hb : listContains q.1 p.1 with
    | false => rfl
    | true =>
      exfalso
      have hlen2 : p.1.length ≤ q.1.length := chainLenDesc_split hchain q hq
      have heq : q.1 = p.1 := listContains_eq_of_length_le hb hlen2
      rw [List.map_append, List.map_cons] at hnodup
      rcases List.nodup_append.1 hnodup with ⟨-, -, hdisj⟩
      exact hdisj (List.mem_map.2 ⟨q, hq, heq⟩) (List.mem_cons_self _ _)
  rw [h₁, List.foldl_cons]
  have hne : p.1 ≠ [] := sorted_value_keys_ne_nil p hs
  have hstep : translateStep p.1 p = p.2 := by
    unfold translateStep
    rw [if_pos (listContains_self p.1)]
    exact pyReplace_key p.1 p.2 hne
  rw [hstep]
  apply foldl_translateStep_skip
  intro q hq
  cases hb : listContains q.1 p.2 with
  | false => rfl
  | true =>
    exfalso
    have hql : q ∈ sorted_translations_value := by
      rw [hsplit]
      exact List.mem_append_right _ (List.mem_cons_of_mem _ hq)
    have hlatin := sorted_value_keys_latin q hql
    rw [List.any_eq_true] at hlatin
    obtain ⟨c, hc, hcl⟩ := hlatin
    have hcv : c ∈ p.2 := mem_of_listContains hb c hc
    have hnl := sorted_value_values_nonlatin p hs
    rw [List.all_eq_true] at hnl
    have hfin := hnl c hcv
    rw [hcl] at hfin
    simp at hfin

/-- Witness for C5 at the concrete key "vehículo". -/
theorem translate_exact_key_witness :
    ("vehículo".data, "транспортное средство".data) ∈ COMPREHENSIVE_TRANSLATIONS ∧
      comprehensive_translate "vehículo".data = "транспортное средство".data := by
  have hm : ("vehículo".data, "транспортное средство".data)
      ∈ COMPREHENSIVE_TRANSLATIONS := by
    rw [COMPREHENSIVE_TRANSLATIONS_eq]; decide
  exact ⟨hm, translate_exact_key ("vehículo".data, "транспортное средство".data) hm⟩

/-- C4: for every input text that contains no dictionary key as a substring,
the Translator returns the input unchanged; being a total function on
strings, it always returns a string and never fails. -/
theorem translate_no_key_fixed (t : List Char)
    (h : ∀ p ∈ COMPREHENSIVE_TRANSLATIONS, listContains p.1 t = false) :
    comprehensive_translate t = t := by
  unfold comprehensive_translate
  exact foldl_translateStep_skip (fun p hp => h p (mem_sorted_translations.1 hp))

/-- Witness for C4 at a concrete Cyrillic input containing no key. -/
theorem translate_no_key_fixed_witness :
    (∀ p ∈ COMPREHENSIVE_TRANSLATIONS,
        listContains p.1 "Привет, мир 123".data = false) ∧
      comprehensive_translate "Привет, мир 123".data = "Привет, мир 123".data := by
  have hv : ∀ p ∈ sorted_translations_value,
      listContains p.1 "Привет, мир 123".data = false := by decide
  have h : ∀ p ∈ COMPREHENSIVE_TRANSLATIONS,
      listContains p.1 "Привет, мир 123".data = false := by
    intro p hp
    exact hv p (by rw [← sorted_translations_eq]; exact mem_sorted_translations.2 hp)
  exact ⟨h, translate_no_key_fixed _ h⟩

/-- C3: the Translator processes entries sorted by key length descending
(checked on `sorted_translations` itself); for the overlapping keys
"licencia" / "licencia de conducir" (one a substring of the other) the
implemented longest-first order replaces the longer phrase intact, while the
shortest-first order would give a different result. -/
theorem translate_longest_first_order :
    chainLenDesc sorted_translations = true ∧
      ("licencia".data, "лицензия".data) ∈ COMPREHENSIVE_TRANSLATIONS ∧
      ("licencia de conducir".data, "водительские права".data)
        ∈ COMPREHENSIVE_TRANSLATIONS ∧
      listContains "licencia".data "licencia de conducir".data = true ∧
      comprehensive_translate "licencia de conducir".data
        = "водительские права".data ∧
      comprehensive_translate_shortest_first "licencia de conducir".data ≠
        comprehensive_translate "licencia de conducir".data := by
  refine ⟨?_, ?_, ?_, by decide, ?_, ?_⟩
  · rw [sorted_translations_eq]; decide
  · rw [COMPREHENSIVE_TRANSLATIONS_eq]; decide
  · rw [COMPREHENSIVE_TRANSLATIONS_eq]; decide
  · rw [comprehensive_translate_value]; decide
  · rw [comprehensive_translate_value, comprehensive_translate_shortest_first_value]
    decide

/-- C10: the dict literal assigns "menos" and "como" twice each; the runtime
mapping keeps only the last value per key ("кроме" for "menos", "как" for
"como"); translating the exact input "menos" yields "кроме" and never the
earlier "менее"; and the list the Translator consults pairs "menos" only
with "кроме", so the earlier value is unreachable for every input. -/
theorem duplicate_keys_last_value_wins :
    (COMPREHENSIVE_TRANSLATIONS_literal.filter (fun p => p.1 == "menos")).map Prod.snd
        = ["менее", "кроме"] ∧
      (COMPREHENSIVE_TRANSLATIONS_literal.filter (fun p => p.1 == "como")).map Prod.snd
        = ["как", "как"] ∧
      COMPREHENSIVE_TRANSLATIONS.filter (fun p => p.1 == "menos".data)
        = [("menos".data, "кроме".data)] ∧
      COMPREHENSIVE_TRANSLATIONS.filter (fun p => p.1 == "como".data)
        = [("como".data, "как".data)] ∧
      comprehensive_translate "menos".data = "кроме".data ∧
      comprehensive_translate "menos".data ≠ "менее".data ∧
      sorted_translations.filter (fun p => p.1 == "menos".data)
        = [("menos".data, "кроме".data)] := by
  refine ⟨by decide, by decide, ?_, ?_, ?_, ?_, ?_⟩
  · rw [COMPREHENSIVE_TRANSLATIONS_eq]; decide
  · rw [COMPREHENSIVE_TRANSLATIONS_eq]; decide
  · rw [comprehensive_translate_value]; decide
  · rw [comprehensive_translate_value]; decide
  · rw [sorted_translations_eq]; decide

/-- A question record (source lines 410-414). -/
structure Question where
  number : Nat
  question : List Char
  options : List (List Char)
deriving DecidableEq

/-- The question-candidate test (source line 365): the line ends with `?`
and is longer than 20 characters. -/
def questionCandidate (l : List Char) : Bool :=
  (l.getLast? == some '?') && decide (l.length > 20)

/-- The lettered-option test, `re.match(r'^[ABC]\.\s+', line)` (source 376):
`A`, `B` or `C`, a dot, then at least one whitespace character. -/
def letteredMatch : List Char → Bool
  | a :: b :: c :: _ => (a == 'A' || a == 'B' || a == 'C') && b == '.' && isPySpace c
  | _ => false

/-- Leading-whitespace stripping performing the `\s*` of the bullet regex. -/
def dropPySpaces : List Char → List Char
  | [] => []
  | c :: rest => if isPySpace c then dropPySpaces rest else c :: rest

/-- The boolean-option test, `re.match(r'^•\s*(Verdadero|Falso)', line)`
(source 380): a bullet, optional whitespace, then a `Verdadero` or `Falso`
prefix (neither alternative starts with whitespace, so the greedy `\s*` is
equivalent to removing all leading whitespace). -/
def bulletMatch : List Char → Bool
  | c :: rest =>
    c == '•' && ("Verdadero".data.isPrefixOf (dropPySpaces rest)
      || "Falso".data.isPrefixOf (dropPySpaces rest))
  | [] => false

/-- The section-header test (source 387): fully upper-case, longer than 10. -/
def isSectionHeaderLine (l : List Char) : Bool :=
  pyIsUpper l && decide (l.length > 10)

/-- The forward option scan (source lines 370-390): from `j`, while
`j < len ∧ j < iLim ∧ cnt < 5`, collect lettered or bullet option lines,
stopping without consuming at a further question candidate or a section
header.  Besides the collected options and the final `j`, it returns `hi`,
the largest index whose line the loop has read (`hi` starts at the question
line's own index); the fuel is 10 ≥ the at most 9 iterations of the window. -/
def optionScanAux (ls : List (List Char)) (iLim : Nat) :
    Nat → Nat → Nat → List (List Char) → Nat → List (List Char) × Nat × Nat
  | 0, j, _, opts, hi => (opts, j, hi)
  | fuel + 1, j, cnt, opts, hi =>
    if j < ls.length ∧ j < iLim ∧ cnt < 5 then
      let next := ls.getD j []
      if letteredMatch next then
        optionScanAux ls iLim fuel (j + 1) (cnt + 1) (opts ++ [next]) j
      else if bulletMatch next then
        optionScanAux ls iLim fuel (j + 1) (cnt + 1) (opts ++ [next]) j
      else if questionCandidate next then (opts, j, j)
      else if isSectionHeaderLine next then (opts, j, j)
      else optionScanAux ls iLim fuel (j + 1) cnt opts j
    else (opts, j, hi)

/-- The True/False fallback scan (source lines 393-403): from `j`, while
`j < len ∧ j < iLim`, record whether some line contains `Verdadero` and
whether some line contains `Falso`; also tracks the farthest line read in
`hi`.  The fuel is 5 ≥ the at most 4 iterations of the window. -/
def fallbackScanAux (ls : List (List Char)) (iLim : Nat) :
    Nat → Nat → Bool → Bool → Nat → Bool × Bool × Nat × Nat
  | 0, j, v, f, hi => (v, f, j, hi)
  | fuel + 1, j, v, f, hi =>
    if j < ls.length ∧ j < iLim then
      let line := ls.getD j []
      fallbackScanAux ls iLim fuel (j + 1)
        (v || listContains "Verdadero".data line)
        (f || listContains "Falso".data line) (max hi j)
    else (v, f, j, hi)

/-- Processing of one question candidate at index `i` (source lines 366-406):
the forward option scan, then, when it found nothing, the True/False fallback
synthesizing the fixed pair.  Returns the collected options, the final value
of the source's `j` cursor, and the farthest line index read. -/
def processCandidate (ls : List (List Char)) (i : Nat) :
    List (List Char) × Nat × Nat :=
  match optionScanAux ls (i + 10) 10 (i + 1) 0 [] i with
  | (opts, j, hi) =>
    if opts.length = 0 then
      match fallbackScanAux ls (i + 5) 5 (i + 1) false false hi with
      | (v, f, j2, hi2) =>
        if v && f then (["• Verdadero".data, "• Falso".data], j2, hi2)
        else ([], j2, hi2)
    else (opts, j, hi)

/-- One iteration of the outer `while` loop (source lines 361-422) at cursor
`i` with next number `qnum` and already-emitted records `acc`: returns the
new cursor, number and records. -/
def extractStep (ls : List (List Char)) (i qnum : Nat) (acc : List Question) :
    Nat × Nat × List Question :=
  let line := ls.getD i []
  if questionCandidate line then
    match processCandidate ls i with
    | (opts, j, _) =>
      if opts.isEmpty then (i + 1, qnum, acc)
      else (j, qnum + 1, acc ++ [⟨qnum, line, opts⟩])
  else (i + 1, qnum, acc)

/-- The outer scanning loop; every step advances the cursor by at least one,
so `ls.length + 1` fuel runs it to completion. -/
def extractLoopAux (ls : List (List Char)) :
    Nat → Nat → Nat → List Question → List Question
  | 0, _, _, acc => acc
  | fuel + 1, i, qnum, acc =>
    if i < ls.length then
      match extractStep ls i qnum acc with
      | (i', qnum', acc') => extractLoopAux ls fuel i' qnum' acc'
    else acc

/-- The question scan over an (already filtered) line sequence. -/
def extract_questions_scan (ls : List (List Char)) : List Question :=
  extractLoopAux ls (ls.length + 1) 0 1 []

/-- The boilerplate markers of the line filter (source lines 352-353). -/
def skip_markers : List (List Char) :=
  ["batería de preguntas".data, "preguntas examen".data,
   "licencia de conducir".data, "anexo i:".data,
   "preguntas generales".data, "algunas de las preguntas".data]

/-- A line is boilerplate when its lower-cased form contains a marker. -/
def is_boilerplate (line : List Char) : Bool :=
  skip_markers.any (fun m => listContains m (pyLower line))

/-- The boilerplate filter (source lines 349-355). -/
def filtered_lines (lines : List (List Char)) : List (List Char) :=
  lines.filter (fun l => !is_boilerplate l)

/-- `extract_questions_from_pdf` after the PDF text dump: filter the lines,
then scan for question/option blocks (source lines 346-424). -/
def extract_questions_from_lines (lines : List (List Char)) : List Question :=
  extract_questions_scan (filtered_lines lines)

/-- C6: on the given four lines the extractor emits exactly one record whose
options are the synthesized pair ["• Verdadero", "• Falso"], produced by the
fallback scan of the following lines, although no bullet-prefixed option line
is present in the input. -/
theorem extract_true_false_fallback :
    extract_questions_from_lines
        ["¿Debe respetar el límite de velocidad?".data,
         "Información adicional".data, "Verdadero".data, "Falso".data]
      = [⟨1, "¿Debe respetar el límite de velocidad?".data,
          ["• Verdadero".data, "• Falso".data]⟩] ∧
      (["¿Debe respetar el límite de velocidad?".data,
        "Información adicional".data, "Verdadero".data, "Falso".data].all
          (fun l => !bulletMatch l)) = true := by
  exact ⟨by decide, by decide⟩

/-- Concrete input for the C1 counterexample: the True/False keywords occur
in the order Falso, then Verdadero. -/
def fallbackOrderLines : List (List Char) :=
  ["¿Puede una pregunta de prueba?".data, "Hay algo Falso aquí".data,
   "Hay algo Verdadero aquí".data]

/-- C1 counterexample: the single emitted record carries the fixed pair
["• Verdadero", "• Falso"], which is not an order-preserving subsequence of
the source lines (the keywords occurred in the opposite order, inside longer
lines), refuting the conjunct that the options of every emitted record appear
in the record in the same order as in the source lines. -/
theorem extract_options_order_counterexample :
    extract_questions_scan fallbackOrderLines
      = [⟨1, "¿Puede una pregunta de prueba?".data,
          ["• Verdadero".data, "• Falso".data]⟩] ∧
      ¬ List.Sublist ["• Verdadero".data, "• Falso".data] fallbackOrderLines := by
  constructor
  · decide
  · intro h
    have hmem : "• Verdadero".data ∈ fallbackOrderLines := h.subset (by simp)
    revert hmem
    decide

/-- Concrete input for the C2 counterexample: one lettered option, then a
second question candidate stopping the forward scan. -/
def breakCursorLines : List (List Char) :=
  ["¿Puede responder esta pregunta?".data, "A. respuesta".data,
   "¿Otra pregunta larga de prueba aquí?".data]

/-- C2 counterexample: the record is emitted from an option scan that stopped
at a further question candidate; the farthest line examined is index 2
(`hi = 2`) and the cursor advances exactly to 2 — not past it — so an
emitting step does not always advance the cursor past the farthest line
examined. -/
theorem cursor_not_past_examined_counterexample :
    processCandidate breakCursorLines 0 = (["A. respuesta".data], 2, 2) ∧
      extractStep breakCursorLines 0 1 []
        = (2, 2, [⟨1, "¿Puede responder esta pregunta?".data,
            ["A. respuesta".data]⟩]) ∧
      ¬ (2 : Nat) > 2 := by
  exact ⟨by decide, by decide, by omega⟩

/-- Concrete input for the C7 counterexample: the continuation line is a
question candidate that also matches the lettered-option pattern. -/
def optionShapedCandidateLines : List (List Char) :=
  ["HEADER".data, "¿Es obligatorio llevar casco?".data, "A. Sí".data,
   "B. No".data, "C. A veces".data, "A. ¿Es esta una pregunta larga?".data]

/-- C7 counterexample: a second question-candidate line that also matches the
lettered-option pattern is consumed as a fourth option instead of terminating
the forward scan, refuting the claim for an arbitrary question-candidate
continuation line. -/
theorem candidate_consumed_as_option_counterexample :
    questionCandidate "A. ¿Es esta una pregunta larga?".data = true ∧
      extract_questions_scan optionShapedCandidateLines
        = [⟨1, "¿Es obligatorio llevar casco?".data,
            ["A. Sí".data, "B. No".data, "C. A veces".data,
             "A. ¿Es esta una pregunta larga?".data]⟩] := by
  exact ⟨by decide, by decide⟩

theorem getD_mem_of_lt {ls : List (List Char)} {i : Nat} (h : i < ls.length) :
    ls.getD i [] ∈ ls := by
  induction ls generalizing i with
  | nil => simp at h
  | cons a t ih =>
    cases i with
    | zero => simp
    | succ n =>
      rw [List.getD_cons_succ]
      exact List.mem_cons_of_mem a (ih (Nat.lt_of_succ_lt_succ h))

theorem extractStep_not_candidate (ls : List (List Char)) (i qnum : Nat)
    (acc : List Question) (hc : questionCandidate (ls.getD i []) = false) :
    extractStep ls i qnum acc = (i + 1, qnum, acc) := by
  simp only [extractStep]
  rw [hc]
  simp

theorem extractStep_no_options (ls : List (List Char)) (i qnum : Nat)
    (acc : List Question) (hc : questionCandidate (ls.getD i []) = true)
    (hp : (processCandidate ls i).1 = []) :
    extractStep ls i qnum acc = (i + 1, qnum, acc) := by
  simp only [extractStep]
  rw [hc]
  rcases hpr : processCandidate ls i with ⟨opts, j, hi⟩
  rw [hpr] at hp
  simp only at hp
  subst hp
  simp

theorem extractStep_of_process (ls : List (List Char)) (i qnum : Nat)
    (acc : List Question) (hc : questionCandidate (ls.getD i []) = true)
    (opts : List (List Char)) (j hi : Nat)
    (hp : processCandidate ls i = (opts, j, hi)) (hne : opts ≠ []) :
    extractStep ls i qnum acc = (j, qnum + 1, acc ++ [⟨qnum, ls.getD i [], opts⟩]) := by
  simp only [extractStep]
  rw [hc, hp]
  simp [hne]

theorem processCandidate_of_scan (ls : List (List Char)) (i : Nat)
    (opts : List (List Char)) (j hi : Nat)
    (hscan : optionScanAux ls (i + 10) 10 (i + 1) 0 [] i = (opts, j, hi))
    (hne : opts ≠ []) :
    processCandidate ls i = (opts, j, hi) := by
  unfold processCandidate
  rw [hscan]
  simp [hne]

theorem extractLoopAux_step (ls : List (List Char)) (fuel i qnum : Nat)
    (acc : List Question) (hil : i < ls.length) (i' qnum' : Nat)
    (acc' : List Question)
    (hstep : extractStep ls i qnum acc = (i', qnum', acc')) :
    extractLoopAux ls (fuel + 1) i qnum acc = extractLoopAux ls fuel i' qnum' acc' := by
  rw [extractLoopAux, if_pos hil, hstep]

theorem extractLoopAux_stop (ls : List (List Char)) (fuel i qnum : Nat)
    (acc : List Question) (h : ¬ i < ls.length) :
    extractLoopAux ls (fuel + 1) i qnum acc = acc := by
  rw [extractLoopAux, if_neg h]

/-- Every record the loop emits (beyond those already in `acc`) has a line of
`ls` as its question text. -/
theorem extractLoopAux_question_mem (ls : List (List Char)) :
    ∀ (fuel i qnum : Nat) (acc : List Question),
      ∀ q ∈ extractLoopAux ls fuel i qnum acc, q ∈ acc ∨ q.question ∈ ls := by
  intro fuel
  induction fuel with
  | zero => intro i qnum acc q hq; exact Or.inl hq
  | succ fuel ih =>
    intro i qnum acc q hq
    by_cases hil : i < ls.length
    · rcases hs : extractStep ls i qnum acc with ⟨i', qnum', acc'⟩
      rw [extractLoopAux_step ls fuel i qnum acc hil i' qnum' acc' hs] at hq
      rcases ih i' qnum' acc' q hq with h | h
      · -- q came from acc' : either already in acc or the newly emitted record
        cases hcb : questionCandidate (ls.getD i []) with
        | false =>
          rw [extractStep_not_candidate ls i qnum acc hcb] at hs
          cases hs
          exact Or.inl h
        | true =>
          rcases hpr : processCandidate ls i with ⟨opts, j, hi2⟩
          by_cases hne : opts = []
          · rw [extractStep_no_options ls i qnum acc hcb (by rw [hpr, hne])] at hs
            cases hs
            exact Or.inl h
          · rw [extractStep_of_process ls i qnum acc hcb opts j hi2 hpr hne] at hs
            cases hs
            rcases List.mem_append.1 h with h' | h'
            · exact Or.inl h'
            · right
              have hq' : q = ⟨qnum, ls.getD i [], opts⟩ := by simpa using h'
              rw [hq']
              exact getD_mem_of_lt hil
      · exact Or.inr h
    · rw [extractLoopAux_stop ls fuel i qnum acc hil] at hq
      exact Or.inl hq

/-- C8: every input line whose lower-cased form contains one of the fixed
boilerplate markers is excluded from the filtered line set and never appears
as the question text of any emitted record. -/
theorem boilerplate_line_excluded (lines : List (List Char)) (l : List Char)
    (h : is_boilerplate l = true) :
    l ∉ filtered_lines lines ∧
      ∀ q ∈ extract_questions_from_lines lines, q.question ≠ l := by
  constructor
  · intro hmem
    rw [filtered_lines, List.mem_filter] at hmem
    rw [h] at hmem
    simp at hmem
  · intro q hq hql
    unfold extract_questions_from_lines extract_questions_scan at hq
    rcases extractLoopAux_question_mem (filtered_lines lines) _ _ _ _ q hq with h' | h'
    · simp at h'
    · rw [hql] at h'
      rw [filtered_lines, List.mem_filter] at h'
      rw [h] at h'
      simp at h'

/-- Concrete input for the C8 witness: an upper-case "Batería de preguntas"
header line followed by an ordinary question block. -/
def boilerplateWitnessLines : List (List Char) :=
  ["BATERÍA DE PREGUNTAS Y RESPUESTAS".data,
   "¿Puede estacionar en doble fila?".data, "A. Sí".data, "B. No".data]

/-- Witness for C8 at a concrete upper-case boilerplate line. -/
theorem boilerplate_line_excluded_witness :
    is_boilerplate "BATERÍA DE PREGUNTAS Y RESPUESTAS".data = true ∧
      "BATERÍA DE PREGUNTAS Y RESPUESTAS".data ∉ filtered_lines boilerplateWitnessLines ∧
      ∀ q ∈ extract_questions_from_lines boilerplateWitnessLines,
        q.question ≠ "BATERÍA DE PREGUNTAS Y RESPUESTAS".data := by
  have h : is_boilerplate "BATERÍA DE PREGUNTAS Y RESPUESTAS".data = true := by decide
  exact ⟨h, boilerplate_line_excluded boilerplateWitnessLines
    "BATERÍA DE PREGUNTAS Y RESPUESTAS".data h⟩

/-- The collected options always form an order-preserving subsequence of the
line list: each iteration appends the line at the strictly increasing read
position. -/
theorem optionScanAux_sublist (ls : List (List Char)) (iLim : Nat) :
    ∀ (fuel j cnt : Nat) (opts : List (List Char)) (hi : Nat),
      List.Sublist opts (ls.take j) →
      List.Sublist (optionScanAux ls iLim fuel j cnt opts hi).1 ls := by
  intro fuel
  induction fuel with
  | zero =>
    intro j cnt opts hi h
    exact h.trans (List.take_sublist _ _)
  | succ fuel ih =>
    intro j cnt opts hi h
    rw [optionScanAux]
    by_cases hcond : j < ls.length ∧ j < iLim ∧ cnt < 5
    · rw [if_pos hcond]
      have hstep : List.Sublist (opts ++ [ls.getD j []]) (ls.take (j + 1)) := by
        rw [List.take_succ, List.getElem?_eq_getElem hcond.1]
        have hgd : ls.getD j [] = ls[j] := by
          rw [List.getD_eq_getElem?_getD, List.getElem?_eq_getElem hcond.1]
          rfl
        rw [hgd]
        exact List.Sublist.append h (List.Sublist.refl _)
      by_cases hl : letteredMatch (ls.getD j []) = true
      · rw [if_pos hl]
        exact ih (j + 1) (cnt + 1) (opts ++ [ls.getD j []]) j hstep
      · rw [if_neg hl]
        by_cases hb : bulletMatch (ls.getD j []) = true
        · rw [if_pos hb]
          exact ih (j + 1) (cnt + 1) (opts ++ [ls.getD j []]) j hstep
        · rw [if_neg hb]
          by_cases hqc : questionCandidate (ls.getD j []) = true
          · rw [if_pos hqc]
            exact h.trans (List.take_sublist _ _)
          · rw [if_neg hqc]
            by_cases hsh : isSectionHeaderLine (ls.getD j []) = true
            · rw [if_pos hsh]
              exact h.trans (List.take_sublist _ _)
            · rw [if_neg hsh]
              exact ih (j + 1) cnt opts j
                (h.trans (List.take_sublist_take_left ls (Nat.le_succ j)))
    · rw [if_neg hcond]
      exact h.trans (List.take_sublist _ _)

/-- The 5-option cap: the counter bounds the collected options. -/
theorem optionScanAux_length_le (ls : List (List Char)) (iLim : Nat) :
    ∀ (fuel j cnt : Nat) (opts : List (List Char)) (hi : Nat),
      opts.length ≤ cnt → cnt ≤ 5 →
      (optionScanAux ls iLim fuel j cnt opts hi).1.length ≤ 5 := by
  intro fuel
  induction fuel with
  | zero =>
    intro j cnt opts hi h1 h2
    exact Nat.le_trans h1 h2
  | succ fuel ih =>
    intro j cnt opts hi h1 h2
    rw [optionScanAux]
    by_cases hcond : j < ls.length ∧ j < iLim ∧ cnt < 5
    · rw [if_pos hcond]
      have hlen : (opts ++ [ls.getD j []]).length ≤ cnt + 1 := by
        simp only [List.length_append, List.length_singleton]
        omega
      by_cases hl : letteredMatch (ls.getD j []) = true
      · rw [if_pos hl]
        exact ih (j + 1) (cnt + 1) _ j hlen hcond.2.2
      · rw [if_neg hl]
        by_cases hb : bulletMatch (ls.getD j []) = true
        · rw [if_pos hb]
          exact ih (j + 1) (cnt + 1) _ j hlen hcond.2.2
        · rw [if_neg hb]
          by_cases hqc : questionCandidate (ls.getD j []) = true
          · rw [if_pos hqc]
            exact Nat.le_trans h1 h2
          · rw [if_neg hqc]
            by_cases hsh : isSectionHeaderLine (ls.getD j []) = true
            · rw [if_pos hsh]
              exact Nat.le_trans h1 h2
            · rw [if_neg hsh]
              exact ih (j + 1) cnt opts j h1 h2
    · rw [if_neg hcond]
      exact Nat.le_trans h1 h2

/-- The forward scan's final `j` never decreases. -/
theorem optionScanAux_le_j (ls : List (List Char)) (iLim : Nat) :
    ∀ (fuel j cnt : Nat) (opts : List (List Char)) (hi : Nat),
      j ≤ (optionScanAux ls iLim fuel j cnt opts hi).2.1 := by
  intro fuel
  induction fuel with
  | zero => intro j cnt opts hi; exact Nat.le_refl j
  | succ fuel ih =>
    intro j cnt opts hi
    rw [optionScanAux]
    by_cases hcond : j < ls.length ∧ j < iLim ∧ cnt < 5
    · rw [if_pos hcond]
      by_cases hl : letteredMatch (ls.getD j []) = true
      · rw [if_pos hl]
        exact Nat.le_trans (Nat.le_succ j) (ih (j + 1) (cnt + 1) _ j)
      · rw [if_neg hl]
        by_cases hb : bulletMatch (ls.getD j []) = true
        · rw [if_pos hb]
          exact Nat.le_trans (Nat.le_succ j) (ih (j + 1) (cnt + 1) _ j)
        · rw [if_neg hb]
          by_cases hqc : questionCandidate (ls.getD j []) = true
          · rw [if_pos hqc]
          · rw [if_neg hqc]
            by_cases hsh : isSectionHeaderLine (ls.getD j []) = true
            · rw [if_pos hsh]
            · rw [if_neg hsh]
              exact Nat.le_trans (Nat.le_succ j) (ih (j + 1) cnt opts j)
    · rw [if_neg hcond]

/-- The forward scan's final `j` is at most one past the farthest read line. -/
theorem optionScanAux_j_le_hi (ls : List (List Char)) (iLim : Nat) :
    ∀ (fuel j cnt : Nat) (opts : List (List Char)) (hi : Nat),
      j ≤ hi + 1 →
      (optionScanAux ls iLim fuel j cnt opts hi).2.1
        ≤ (optionScanAux ls iLim fuel j cnt opts hi).2.2 + 1 := by
  intro fuel
  induction fuel with
  | zero => intro j cnt opts hi h; exact h
  | succ fuel ih =>
    intro j cnt opts hi h
    rw [optionScanAux]
    by_cases hcond : j < ls.length ∧ j < iLim ∧ cnt < 5
    · rw [if_pos hcond]
      by_cases hl : letteredMatch (ls.getD j []) = true
      · rw [if_pos hl]
        exact ih (j + 1) (cnt + 1) _ j (Nat.le_refl _)
      · rw [if_neg hl]
        by_cases hb : bulletMatch (ls.getD j []) = true
        · rw [if_pos hb]
          exact ih (j + 1) (cnt + 1) _ j (Nat.le_refl _)
        · rw [if_neg hb]
          by_cases hqc : questionCandidate (ls.getD j []) = true
          · rw [if_pos hqc]
            exact Nat.le_succ j
          · rw [if_neg hqc]
            by_cases hsh : isSectionHeaderLine (ls.getD j []) = true
            · rw [if_pos hsh]
              exact Nat.le_succ j
            · rw [if_neg hsh]
              exact ih (j + 1) cnt opts j (Nat.le_refl _)
    · rw [if_neg hcond]
      exact h

/-- The farthest read line only moves forward. -/
theorem optionScanAux_hi_le (ls : List (List Char)) (iLim : Nat) :
    ∀ (fuel j cnt : Nat) (opts : List (List Char)) (hi : Nat),
      hi < j →
      hi ≤ (optionScanAux ls iLim fuel j cnt opts hi).2.2 := by
  intro fuel
  induction fuel with
  | zero => intro j cnt opts hi h; exact Nat.le_refl hi
  | succ fuel ih =>
    intro j cnt opts hi h
    rw [optionScanAux]
    by_cases hcond : j < ls.length ∧ j < iLim ∧ cnt < 5
    · rw [if_pos hcond]
      have hj : hi ≤ j := Nat.le_of_lt h
      by_cases hl : letteredMatch (ls.getD j []) = true
      · rw [if_pos hl]
        exact Nat.le_trans hj (ih (j + 1) (cnt + 1) _ j (Nat.lt_succ_self j))
      · rw [if_neg hl]
        by_cases hb : bulletMatch (ls.getD j []) = true
        · rw [if_pos hb]
          exact Nat.le_trans hj (ih (j + 1) (cnt + 1) _ j (Nat.lt_succ_self j))
        · rw [if_neg hb]
          by_cases hqc : questionCandidate (ls.getD j []) = true
          · rw [if_pos hqc]
            exact hj
          · rw [if_neg hqc]
            by_cases hsh : isSectionHeaderLine (ls.getD j []) = true
            · rw [if_pos hsh]
              exact hj
            · rw [if_neg hsh]
              exact Nat.le_trans hj (ih (j + 1) cnt opts j (Nat.lt_succ_self j))
    · rw [if_neg hcond]

/-- The fallback scan's final `j` never decreases. -/
theorem fallbackScanAux_le_j (ls : List (List Char)) (iLim : Nat) :
    ∀ (fuel j : Nat) (v f : Bool) (hi : Nat),
      j ≤ (fallbackScanAux ls iLim fuel j v f hi).2.2.1 := by
  intro fuel
  induction fuel with
  | zero => intro j v f hi; exact Nat.le_refl j
  | succ fuel ih =>
    intro j v f hi
    rw [fallbackScanAux]
    by_cases hcond : j < ls.length ∧ j < iLim
    · rw [if_pos hcond]
      exact Nat.le_trans (Nat.le_succ j) (ih (j + 1) _ _ _)
    · rw [if_neg hcond]

/-- The fallback scan's final `j` is at most one past the farthest read line. -/
theorem fallbackScanAux_j_le_hi (ls : List (List Char)) (iLim : Nat) :
    ∀ (fuel j : Nat) (v f : Bool) (hi : Nat),
      j ≤ hi + 1 →
      (fallbackScanAux ls iLim fuel j v f hi).2.2.1
        ≤ (fallbackScanAux ls iLim fuel j v f hi).2.2.2 + 1 := by
  intro fuel
  induction fuel with
  | zero => intro j v f hi h; exact h
  | succ fuel ih =>
    intro j v f hi h
    rw [fallbackScanAux]
    by_cases hcond : j < ls.length ∧ j < iLim
    · rw [if_pos hcond]
      exact ih (j + 1) _ _ (max hi j) (by omega)
    · rw [if_neg hcond]
      exact h

/-- The options a candidate yields are at most 5 and are either an
order-preserving subsequence of the lines (option-scan path) or the fixed
synthesized pair (fallback path) or empty (no emission). -/
theorem processCandidate_opts (ls : List (List Char)) (i : Nat) :
    (processCandidate ls i).1.length ≤ 5 ∧
      (List.Sublist (processCandidate ls i).1 ls ∨
        (processCandidate ls i).1 = ["• Verdadero".data, "• Falso".data] ∨
        (processCandidate ls i).1 = []) := by
  have hlen := optionScanAux_length_le ls (i + 10) 10 (i + 1) 0 [] i
    (Nat.le_refl 0) (by omega)
  have hsub := optionScanAux_sublist ls (i + 10) 10 (i + 1) 0 [] i
    (List.nil_sublist _)
  rcases hscan : optionScanAux ls (i + 10) 10 (i + 1) 0 [] i with ⟨opts, j, hi⟩
  rw [hscan] at hlen hsub
  by_cases h0 : opts.length = 0
  · rcases hfb : fallbackScanAux ls (i + 5) 5 (i + 1) false false hi with ⟨v, f, j2, hi2⟩
    by_cases hvf : (v && f) = true
    · have hp : processCandidate ls i
          = (["• Verdadero".data, "• Falso".data], j2, hi2) := by
        unfold processCandidate
        rw [hscan]
        simp [h0, hfb, hvf]
      rw [hp]
      refine ⟨?_, Or.inr (Or.inl rfl)⟩
      show (["• Verdadero".data, "• Falso".data] : List (List Char)).length ≤ 5
      decide
    · have hp : processCandidate ls i = ([], j2, hi2) := by
        unfold processCandidate
        rw [hscan]
        simp [h0, hfb, hvf]
      rw [hp]
      refine ⟨?_, Or.inr (Or.inr rfl)⟩
      show ([] : List (List Char)).length ≤ 5
      decide
  · have hne : opts ≠ [] := fun hh => h0 (by rw [hh]; rfl)
    have hp := processCandidate_of_scan ls i opts j hi hscan hne
    rw [hp]
    exact ⟨hlen, Or.inl hsub⟩

/-- C2 (amended): whenever a question candidate yields options (from either
path) the emitted-record step advances the cursor to the scan's final `j`,
which is strictly beyond the question line and at most one past the farthest
line examined — though, as the counterexample shows, not in general strictly
past it; whenever a candidate yields no options the cursor advances by
exactly one line. -/
theorem extract_cursor_advance (ls : List (List Char)) (i qnum : Nat)
    (acc : List Question)
    (hc : questionCandidate (ls.getD i []) = true) :
    ((processCandidate ls i).1 ≠ [] →
        extractStep ls i qnum acc
          = ((processCandidate ls i).2.1, qnum + 1,
              acc ++ [⟨qnum, ls.getD i [], (processCandidate ls i).1⟩]) ∧
          i < (processCandidate ls i).2.1 ∧
          (processCandidate ls i).2.1 ≤ (processCandidate ls i).2.2 + 1) ∧
      ((processCandidate ls i).1 = [] →
        extractStep ls i qnum acc = (i + 1, qnum, acc)) := by
  have hJ := optionScanAux_le_j ls (i + 10) 10 (i + 1) 0 [] i
  have hJH := optionScanAux_j_le_hi ls (i + 10) 10 (i + 1) 0 [] i (Nat.le_refl _)
  have hHI := optionScanAux_hi_le ls (i + 10) 10 (i + 1) 0 [] i (Nat.lt_succ_self i)
  rcases hscan : optionScanAux ls (i + 10) 10 (i + 1) 0 [] i with ⟨opts, j, hi⟩
  rw [hscan] at hJ hJH hHI
  have hJ' : i + 1 ≤ j := hJ
  have hJH' : j ≤ hi + 1 := hJH
  have hHI' : i ≤ hi := hHI
  by_cases h0 : opts.length = 0
  · rcases hfb : fallbackScanAux ls (i + 5) 5 (i + 1) false false hi with ⟨v, f, j2, hi2⟩
    have hJ2 := fallbackScanAux_le_j ls (i + 5) 5 (i + 1) false false hi
    have hJH2 := fallbackScanAux_j_le_hi ls (i + 5) 5 (i + 1) false false hi (by omega)
    rw [hfb] at hJ2 hJH2
    have hJ2' : i + 1 ≤ j2 := hJ2
    have hJH2' : j2 ≤ hi2 + 1 := hJH2
    by_cases hvf : (v && f) = true
    · have hp : processCandidate ls i
          = (["• Verdadero".data, "• Falso".data], j2, hi2) := by
        unfold processCandidate
        rw [hscan]
        simp [h0, hfb, hvf]
      constructor
      · intro hne2
        rw [hp]
        refine ⟨extractStep_of_process ls i qnum acc hc
          (["• Verdadero".data, "• Falso".data]) j2 hi2 hp (by simp), ?_, ?_⟩
        · show i < j2
          omega
        · show j2 ≤ hi2 + 1
          exact hJH2'
      · intro hempty
        rw [hp] at hempty
        simp at hempty
    · have hp : processCandidate ls i = ([], j2, hi2) := by
        unfold processCandidate
        rw [hscan]
        simp [h0, hfb, hvf]
      constructor
      · intro hne2
        rw [hp] at hne2
        simp at hne2
      · intro hempty
        exact extractStep_no_options ls i qnum acc hc (by rw [hp])
  · have hne : opts ≠ [] := fun hh => h0 (by rw [hh]; rfl)
    have hp := processCandidate_of_scan ls i opts j hi hscan hne
    constructor
    · intro hne2
      rw [hp]
      refine ⟨extractStep_of_process ls i qnum acc hc opts j hi hp hne, ?_, ?_⟩
      · show i < j
        omega
      · show j ≤ hi + 1
        exact hJH'
    · intro hempty
      rw [hp] at hempty
      simp only at hempty
      exact absurd hempty hne

/-- Witness for C2 (amended) at the concrete break-case input. -/
theorem extract_cursor_advance_witness :
    questionCandidate (breakCursorLines.getD 0 []) = true ∧
      (((processCandidate breakCursorLines 0).1 ≠ [] →
          extractStep breakCursorLines 0 1 []
            = ((processCandidate breakCursorLines 0).2.1, 2,
                [] ++ [⟨1, breakCursorLines.getD 0 [],
                  (processCandidate breakCursorLines 0).1⟩]) ∧
            0 < (processCandidate breakCursorLines 0).2.1 ∧
            (processCandidate breakCursorLines 0).2.1
              ≤ (processCandidate breakCursorLines 0).2.2 + 1) ∧
        ((processCandidate breakCursorLines 0).1 = [] →
          extractStep breakCursorLines 0 1 [] = (0 + 1, 1, []))) := by
  exact ⟨by decide, extract_cursor_advance breakCursorLines 0 1 [] (by decide)⟩

/-- Loop invariant for C1: the numbering stays `1..n` and every emitted
record keeps the option bounds; `acc.length + 1` is the next number. -/
theorem extractLoopAux_invariants (ls : List (List Char)) :
    ∀ (fuel i : Nat) (acc : List Question),
      acc.map Question.number = List.range' 1 acc.length →
      (∀ q ∈ acc, 1 ≤ q.options.length ∧ q.options.length ≤ 5 ∧
          (List.Sublist q.options ls ∨
            q.options = ["• Verdadero".data, "• Falso".data])) →
      ((extractLoopAux ls fuel i (acc.length + 1) acc).map Question.number
          = List.range' 1 (extractLoopAux ls fuel i (acc.length + 1) acc).length ∧
        ∀ q ∈ extractLoopAux ls fuel i (acc.length + 1) acc,
          1 ≤ q.options.length ∧ q.options.length ≤ 5 ∧
            (List.Sublist q.options ls ∨
              q.options = ["• Verdadero".data, "• Falso".data])) := by
  intro fuel
  induction fuel with
  | zero => intro i acc h1 h2; exact ⟨h1, h2⟩
  | succ fuel ih =>
    intro i acc h1 h2
    by_cases hil : i < ls.length
    · cases hcb : questionCandidate (ls.getD i []) with
      | false =>
        rw [extractLoopAux_step ls fuel i _ acc hil _ _ _
          (extractStep_not_candidate ls i _ acc hcb)]
        exact ih (i + 1) acc h1 h2
      | true =>
        rcases hpr : processCandidate ls i with ⟨opts, j, hi2⟩
        by_cases hne : opts = []
        · rw [extractLoopAux_step ls fuel i _ acc hil _ _ _
            (extractStep_no_options ls i _ acc hcb (by rw [hpr, hne]))]
          exact ih (i + 1) acc h1 h2
        · rw [extractLoopAux_step ls fuel i _ acc hil _ _ _
            (extractStep_of_process ls i _ acc hcb opts j hi2 hpr hne)]
          have hqn : acc.length + 1 + 1
              = (acc ++ [(⟨acc.length + 1, ls.getD i [], opts⟩ : Question)]).length
                  + 1 := by
            simp
          rw [hqn]
          apply ih j
          · rw [List.map_append, h1, List.length_append]
            simp [List.range'_concat, Nat.add_comm]
          · intro q hq
            rcases List.mem_append.1 hq with h' | h'
            · exact h2 q h'
            · have hq' : q = ⟨acc.length + 1, ls.getD i [], opts⟩ := by
                simpa using h'
              rw [hq']
              have hop := processCandidate_opts ls i
              rw [hpr] at hop
              refine ⟨?_, hop.1, ?_⟩
              · show 1 ≤ opts.length
                have := List.length_pos.2 hne
                omega
              · rcases hop.2 with hs | hs | hs
                · exact Or.inl hs
                · exact Or.inr hs
                · exact absurd hs hne
    · rw [extractLoopAux_stop ls fuel i _ acc hil]
      exact ⟨h1, h2⟩

/-- C1 (amended): every emitted record has between 1 and 5 options and the
k-th emitted record carries number k; options collected by the option scan
appear in source order (they form an order-preserving subsequence of the
input lines), while fallback-synthesized records instead carry the fixed pair
["• Verdadero", "• Falso"], which — as the counterexample shows — need not
reflect the source order of the keywords. -/
theorem extract_records_invariants (ls : List (List Char)) :
    (extract_questions_scan ls).map Question.number
        = List.range' 1 (extract_questions_scan ls).length ∧
      ∀ q ∈ extract_questions_scan ls,
        1 ≤ q.options.length ∧ q.options.length ≤ 5 ∧
          (List.Sublist q.options ls ∨
            q.options = ["• Verdadero".data, "• Falso".data]) := by
  exact extractLoopAux_invariants ls (ls.length + 1) 0 [] (by rfl)
    (by intro q hq; simp at hq)

/-- Witness for C1 (amended) at the fallback-order input. -/
theorem extract_records_invariants_witness :
    (⟨1, "¿Puede una pregunta de prueba?".data,
        ["• Verdadero".data, "• Falso".data]⟩ : Question)
        ∈ extract_questions_scan fallbackOrderLines ∧
      (1 ≤ (["• Verdadero".data, "• Falso".data] : List (List Char)).length ∧
        (["• Verdadero".data, "• Falso".data] : List (List Char)).length ≤ 5 ∧
        (List.Sublist (["• Verdadero".data, "• Falso".data] : List (List Char))
            fallbackOrderLines ∨
          (["• Verdadero".data, "• Falso".data] : List (List Char))
            = ["• Verdadero".data, "• Falso".data])) := by
  have hm : (⟨1, "¿Puede una pregunta de prueba?".data,
      ["• Verdadero".data, "• Falso".data]⟩ : Question)
      ∈ extract_questions_scan fallbackOrderLines := by decide
  exact ⟨hm, (extract_records_invariants fallbackOrderLines).2
    ⟨1, "¿Puede una pregunta de prueba?".data,
      ["• Verdadero".data, "• Falso".data]⟩ hm⟩

/-- Break step of the forward scan: a line matching neither option pattern
that is a question candidate stops the scan without being consumed. -/
theorem optionScanAux_break (ls : List (List Char)) (iLim fuel j cnt : Nat)
    (opts : List (List Char)) (hi : Nat)
    (hcond : j < ls.length ∧ j < iLim ∧ cnt < 5)
    (hl : letteredMatch (ls.getD j []) = false)
    (hb : bulletMatch (ls.getD j []) = false)
    (hq : questionCandidate (ls.getD j []) = true) :
    optionScanAux ls iLim (fuel + 1) j cnt opts hi = (opts, j, j) := by
  rw [optionScanAux, if_pos hcond, if_neg (fun hh => by rw [hl] at hh; simp at hh),
    if_neg (fun hh => by rw [hb] at hh; simp at hh), if_pos hq]

/-- The five fixed lines of the C7 scenario followed by an arbitrary
continuation line. -/
def secondCandidateLines (s : List Char) : List (List Char) :=
  ["HEADER".data, "¿Es obligatorio llevar casco?".data, "A. Sí".data,
   "B. No".data, "C. A veces".data, s]

/-- C7 (amended): for every continuation line that is a question candidate
and is not itself shaped like a lettered or bullet option line, the extractor
emits exactly one record with exactly the three options; the continuation
line is never consumed as an option: the forward scan stops at it, the
cursor advances exactly to its index 5, and the loop re-examines it as a
question candidate (which yields no options, so nothing further is
emitted). -/
theorem extract_second_candidate_terminates (s : List Char)
    (hq : questionCandidate s = true) (hl : letteredMatch s = false)
    (hb : bulletMatch s = false) :
    extract_questions_scan (secondCandidateLines s)
      = [⟨1, "¿Es obligatorio llevar casco?".data,
          ["A. Sí".data, "B. No".data, "C. A veces".data]⟩] ∧
      extractStep (secondCandidateLines s) 1 1 []
        = (5, 2, [⟨1, "¿Es obligatorio llevar casco?".data,
            ["A. Sí".data, "B. No".data, "C. A veces".data]⟩]) ∧
      (secondCandidateLines s).getD 5 [] = s := by
  have hscan : optionScanAux (secondCandidateLines s) 11 10 2 0 [] 1
      = (["A. Sí".data, "B. No".data, "C. A veces".data], 5, 5) := by
    have h1 : optionScanAux (secondCandidateLines s) 11 10 2 0 [] 1
        = optionScanAux (secondCandidateLines s) 11 7 5 3
            ["A. Sí".data, "B. No".data, "C. A veces".data] 4 := by rfl
    rw [h1]
    exact optionScanAux_break (secondCandidateLines s) 11 6 5 3
      ["A. Sí".data, "B. No".data, "C. A veces".data] 4
      ⟨by show (5 : Nat) < 6
          decide,
       by decide, by decide⟩ hl hb hq
  have hproc : processCandidate (secondCandidateLines s) 1
      = (["A. Sí".data, "B. No".data, "C. A veces".data], 5, 5) :=
    processCandidate_of_scan (secondCandidateLines s) 1
      ["A. Sí".data, "B. No".data, "C. A veces".data] 5 5 hscan (by simp)
  have hstep1 : extractStep (secondCandidateLines s) 1 1 []
      = (5, 2, [⟨1, "¿Es obligatorio llevar casco?".data,
          ["A. Sí".data, "B. No".data, "C. A veces".data]⟩]) := by
    have := extractStep_of_process (secondCandidateLines s) 1 1 []
      (by show questionCandidate "¿Es obligatorio llevar casco?".data = true
          decide)
      ["A. Sí".data, "B. No".data, "C. A veces".data] 5 5 hproc (by simp)
    exact this
  have hstep5 : extractStep (secondCandidateLines s) 5 2
      [⟨1, "¿Es obligatorio llevar casco?".data,
        ["A. Sí".data, "B. No".data, "C. A veces".data]⟩]
      = (6, 2, [⟨1, "¿Es obligatorio llevar casco?".data,
          ["A. Sí".data, "B. No".data, "C. A veces".data]⟩]) :=
    extractStep_no_options (secondCandidateLines s) 5 2 _ hq (by rfl)
  refine ⟨?_, hstep1, rfl⟩
  show extractLoopAux (secondCandidateLines s) 7 0 1 []
      = [⟨1, "¿Es obligatorio llevar casco?".data,
          ["A. Sí".data, "B. No".data, "C. A veces".data]⟩]
  have e0 : extractLoopAux (secondCandidateLines s) 7 0 1 []
      = extractLoopAux (secondCandidateLines s) 6 1 1 [] :=
    extractLoopAux_step (secondCandidateLines s) 6 0 1 []
      (by show (0 : Nat) < 6
          decide) 1 1 [] (by rfl)
  have e1 : extractLoopAux (secondCandidateLines s) 6 1 1 []
      = extractLoopAux (secondCandidateLines s) 5 5 2
          [⟨1, "¿Es obligatorio llevar casco?".data,
            ["A. Sí".data, "B. No".data, "C. A veces".data]⟩] :=
    extractLoopAux_step (secondCandidateLines s) 5 1 1 []
      (by show (1 : Nat) < 6
          decide) 5 2 _ hstep1
  have e2 : extractLoopAux (secondCandidateLines s) 5 5 2
      [⟨1, "¿Es obligatorio llevar casco?".data,
        ["A. Sí".data, "B. No".data, "C. A veces".data]⟩]
      = extractLoopAux (secondCandidateLines s) 4 6 2
          [⟨1, "¿Es obligatorio llevar casco?".data,
            ["A. Sí".data, "B. No".data, "C. A veces".data]⟩] :=
    extractLoopAux_step (secondCandidateLines s) 4 5 2 _
      (by show (5 : Nat) < 6
          decide) 6 2 _ hstep5
  have e3 : extractLoopAux (secondCandidateLines s) 4 6 2
      [⟨1, "¿Es obligatorio llevar casco?".data,
        ["A. Sí".data, "B. No".data, "C. A veces".data]⟩]
      = [⟨1, "¿Es obligatorio llevar casco?".data,
          ["A. Sí".data, "B. No".data, "C. A veces".data]⟩] :=
    extractLoopAux_stop (secondCandidateLines s) 3 6 2 _
      (by show ¬ (6 : Nat) < 6
          omega)
  exact e0.trans (e1.trans (e2.trans e3))

/-- Witness for C7 (amended) at the spec's concrete second question line. -/
theorem extract_second_candidate_terminates_witness :
    (questionCandidate "¿Otra pregunta larga de prueba aquí?".data = true ∧
        letteredMatch "¿Otra pregunta larga de prueba aquí?".data = false ∧
        bulletMatch "¿Otra pregunta larga de prueba aquí?".data = false) ∧
      extract_questions_scan
          (secondCandidateLines "¿Otra pregunta larga de prueba aquí?".data)
        = [⟨1, "¿Es obligatorio llevar casco?".data,
            ["A. Sí".data, "B. No".data, "C. A veces".data]⟩] := by
  refine ⟨⟨by decide, by decide, by decide⟩, ?_⟩
  exact (extract_second_candidate_terminates
    "¿Otra pregunta larga de prueba aquí?".data
    (by decide) (by decide) (by decide)).1

/-- The reportlab paragraph-style attributes the script sets or the claim
refers to.  Attributes the source leaves unset carry the parent defaults:
`Normal` is Helvetica 10, left-aligned (0), black, no indent; `Title` is
Helvetica-Bold, centered (1). -/
structure ParagraphStyle where
  name : List Char
  fontSize : Nat
  alignment : Nat
  fontName : List Char
  textColor : List Char
  leftIndent : Nat
  spaceBefore : Nat
  spaceAfter : Nat
deriving DecidableEq

/-- A reportlab flowable as the script uses them: a styled paragraph of
markup text, or a spacer. -/
inductive Flowable where
  | para (text : List Char) (style : ParagraphStyle)
  | spacer (width height : Nat)
deriving DecidableEq

/-- `title_style` (source lines 438-444): parent `Title`, fontSize 16,
spaceAfter 20, centered. -/
def title_style : ParagraphStyle :=
  { name := "CustomTitle".data, fontSize := 16, alignment := 1,
    fontName := "Helvetica-Bold".data, textColor := "black".data,
    leftIndent := 0, spaceBefore := 0, spaceAfter := 20 }

/-- `subtitle_style` (source lines 446-453): parent `Normal`, fontSize 10,
spaceAfter 15, centered, grey. -/
def subtitle_style : ParagraphStyle :=
  { name := "SubtitleStyle".data, fontSize := 10, alignment := 1,
    fontName := "Helvetica".data, textColor := "grey".data,
    leftIndent := 0, spaceBefore := 0, spaceAfter := 15 }

/-- `question_style` (source lines 455-462): bold, fontSize 10. -/
def question_style : ParagraphStyle :=
  { name := "QuestionStyle".data, fontSize := 10, alignment := 0,
    fontName := "Helvetica-Bold".data, textColor := "black".data,
    leftIndent := 0, spaceBefore := 8, spaceAfter := 4 }

/-- `answer_style` (source lines 464-471): fontSize 9, leftIndent 15. -/
def answer_style : ParagraphStyle :=
  { name := "AnswerStyle".data, fontSize := 9, alignment := 0,
    fontName := "Helvetica".data, textColor := "black".data,
    leftIndent := 15, spaceBefore := 2, spaceAfter := 2 }

/-- `russian_question_style` (source lines 473-481): bold, dark blue. -/
def russian_question_style : ParagraphStyle :=
  { name := "RussianQuestionStyle".data, fontSize := 10, alignment := 0,
    fontName := "Helvetica-Bold".data, textColor := "darkblue".data,
    leftIndent := 0, spaceBefore := 6, spaceAfter := 4 }

/-- `russian_answer_style` (source lines 483-491): fontSize 9, leftIndent 15,
dark blue. -/
def russian_answer_style : ParagraphStyle :=
  { name := "RussianAnswerStyle".data, fontSize := 9, alignment := 0,
    fontName := "Helvetica".data, textColor := "darkblue".data,
    leftIndent := 15, spaceBefore := 2, spaceAfter := 2 }

/-- The title markup text (source line 494). -/
def title_text : List Char :=
  "CUESTIONARIO BILINGÜE ESPAÑOL-RUSO<br/>ESPAÑOL-РУССКИЙ ВОПРОСНИК".data

/-- The subtitle markup text (source line 497). -/
def subtitle_text : List Char :=
  "Preguntas de Examen Teórico - Licencia de Conducir<br/>Вопросы теоретического экзамена - Водительские права".data

/-- Decimal rendering of a number, as Python string interpolation does. -/
def natChars (n : Nat) : List Char := (Nat.repr n).data

/-- The body of the renderer's per-question loop (source lines 503-524,
the `print` progress line aside): append the bold Spanish question paragraph,
one indented paragraph per Spanish option, the bold dark Russian question
paragraph (question passed through the Translator), one indented dark
paragraph per translated option, and a trailing spacer. -/
def story_question_step (story : List Flowable) (q : Question) : List Flowable :=
  let question_text := natChars q.number ++ ". ".data ++ q.question
  let story := story ++
    [Flowable.para ("<b>".data ++ question_text ++ "</b>".data) question_style]
  let story := q.options.foldl (fun story option =>
    story ++ [Flowable.para option answer_style]) story
  let russian_question := comprehensive_translate q.question
  let story := story ++
    [Flowable.para ("<b>".data ++ natChars q.number ++ ". ".data
        ++ russian_question ++ "</b>".data) russian_question_style]
  let story := q.options.foldl (fun story option =>
    story ++ [Flowable.para (comprehensive_translate option) russian_answer_style]) story
  story ++ [Flowable.spacer 1 12]

/-- `create_bilingual_pdf`'s story construction (source lines 426-527), up to
the final `doc.build(story)` call, which serializes the block sequence. -/
def create_bilingual_story (questions : List Question) : List Flowable :=
  let story : List Flowable := []
  let story := story ++ [Flowable.para title_text title_style]
  let story := story ++ [Flowable.para subtitle_text subtitle_style]
  let story := story ++ [Flowable.spacer 1 15]
  questions.foldl story_question_step story

/-- The per-question block sequence exactly as the claim words it. -/
def question_block_spec (q : Question) : List Flowable :=
  [Flowable.para ("<b>".data ++ (natChars q.number ++ ". ".data ++ q.question)
      ++ "</b>".data) question_style]
    ++ q.options.map (fun o => Flowable.para o answer_style)
    ++ [Flowable.para ("<b>".data ++ natChars q.number ++ ". ".data
        ++ comprehensive_translate q.question ++ "</b>".data) russian_question_style]
    ++ q.options.map (fun o =>
        Flowable.para (comprehensive_translate o) russian_answer_style)
    ++ [Flowable.spacer 1 12]

/-- The whole story exactly as the claim words it. -/
def story_spec (questions : List Question) : List Flowable :=
  [Flowable.para title_text title_style, Flowable.para subtitle_text subtitle_style,
   Flowable.spacer 1 15] ++ (questions.map question_block_spec).flatten

theorem foldl_append_block {β : Type} (g : β → Flowable) :
    ∀ (l : List β) (init : List Flowable),
      l.foldl (fun story o => story ++ [g o]) init = init ++ l.map g := by
  intro l
  induction l with
  | nil => intro init; simp
  | cons a t ih =>
    intro init
    rw [List.foldl_cons, ih, List.map_cons]
    simp

theorem story_question_step_eq (story : List Flowable) (q : Question) :
    story_question_step story q = story ++ question_block_spec q := by
  simp only [story_question_step, question_block_spec]
  rw [foldl_append_block (fun option => Flowable.para option answer_style),
    foldl_append_block (fun option =>
      Flowable.para (comprehensive_translate option) russian_answer_style)]
  simp

theorem foldl_story_steps (questions : List Question) :
    ∀ init : List Flowable,
      questions.foldl story_question_step init
        = init ++ (questions.map question_block_spec).flatten := by
  induction questions with
  | nil => intro init; simp
  | cons q rest ih =>
    intro init
    rw [List.foldl_cons, story_question_step_eq, ih]
    simp

/-- C9: for every question-record list the renderer builds exactly a centered
title, a centered subtitle, a spacer, then for each record in input order a
bold Spanish paragraph "{number}. {question}", one indented paragraph per
Spanish option in order, a bold dark-colored paragraph with the same number
and the Translator's rendering of the question, one indented dark-colored
paragraph per translated option in order, and a trailing spacer. -/
theorem create_bilingual_story_correct (questions : List Question) :
    create_bilingual_story questions = story_spec questions ∧
      title_style.alignment = 1 ∧ subtitle_style.alignment = 1 ∧
      question_style.fontName = "Helvetica-Bold".data ∧
      russian_question_style.fontName = "Helvetica-Bold".data ∧
      russian_question_style.textColor = "darkblue".data ∧
      russian_answer_style.textColor = "darkblue".data ∧
      answer_style.leftIndent = 15 ∧ russian_answer_style.leftIndent = 15 := by
  refine ⟨?_, rfl, rfl, rfl, rfl, rfl, rfl, rfl, rfl⟩
  show create_bilingual_story questions = story_spec questions
  unfold create_bilingual_story story_spec
  rw [foldl_story_steps]
  simp
